import Mathlib

/-!
A shallow embedding of the selector-healing engine (healer, its four healing
strategies, the retry handler, URL validation, flakiness statistics) and
proofs about it.

Conventions of the embedding:

* JavaScript strings are Lean `String`s; all string operations are implemented
  here on `String.data` (lists of characters) so that every definition
  evaluates by kernel reduction.  The source strings are ASCII, so
  `toLowerCase` is modelled as ASCII lowercasing.
* JavaScript numbers that carry confidence scores are modelled as exact
  rationals `ℚ`; literals such as `0.7` are written `q 7 10` (`mkRat 7 10`)
  and arithmetic is done through `qAdd`/`qMul`/`qSub`, which mirror the exact
  value of the floating point expressions used by the source (all source
  arithmetic on confidences is exact in binary-free decimal terms at the
  granularity used here).
* The browser page is an oracle (`Page`): `probe` is the outcome of
  `page.locator(sel).count() > 0` (driver errors during the probe count as
  `false`, exactly as `checkSelectorExists` catches them), and the
  `page.evaluate` extraction scripts are modelled by the lists of element
  descriptors they return.  The remote LLM call is likewise an oracle
  (`aiResponse`), holding the outcomes of the JS-runtime regex/JSON.parse
  layers applied to the raw response text.
* JavaScript `Map`s: the healing cache is a function `String → Option entry`
  (get/set/delete/clear are pointwise), the flakiness tracker is an
  association list because `getFlakinessStats` iterates over its entries.
* `Array.prototype.sort` with comparator `(a, b) => b.confidence - a.confidence`
  is a stable descending sort; it is modelled by `sortStable` below (stable
  insertion sort: an element is inserted before the first element whose key
  is not strictly greater).
-/

set_option maxRecDepth 100000

namespace ShiftyHeal

/-! ## Characters and strings -/

/-- Whitespace test matching the JS regex class `\s` on the ASCII range. -/
def isWsCh (c : Char) : Bool :=
  c = ' ' || c = '\t' || c = '\n' || c = '\r' || c.toNat = 11 || c.toNat = 12

/-- ASCII lowercasing of one character (JS `toLowerCase` on ASCII input). -/
def toLowerCh (c : Char) : Char :=
  if 65 ≤ c.toNat ∧ c.toNat ≤ 90 then Char.ofNat (c.toNat + 32) else c

/-- JS `String.prototype.toLowerCase` (ASCII). -/
def lowerStr (s : String) : String := ⟨s.data.map toLowerCh⟩

/-- `la` is a prefix of `lb`. -/
def isPrefixL : List Char → List Char → Bool
  | [], _ => true
  | _ :: _, [] => false
  | a :: as, b :: bs => a = b && isPrefixL as bs

/-- `sub` occurs as a contiguous segment of `hay`. -/
def isInfixL (sub : List Char) : List Char → Bool
  | [] => sub.isEmpty
  | c :: rest => isPrefixL sub (c :: rest) || isInfixL sub rest

/-- JS `hay.includes(needle)`. -/
def strIncludes (hay needle : String) : Bool := isInfixL needle.data hay.data

/-- JS `s.endsWith(post)`. -/
def endsWithStr (s post : String) : Bool :=
  isPrefixL post.data.reverse s.data.reverse

/-- JS `s.trim()` (strips leading and trailing whitespace). -/
def jsTrim (s : String) : String :=
  ⟨((s.data.dropWhile isWsCh).reverse.dropWhile isWsCh).reverse⟩

/-- Worker for `jsSplitWs`; `skipping` is true while inside a whitespace run. -/
def jsSplitWsGo : List Char → List Char → List (List Char) → Bool → List (List Char)
  | [], cur, acc, false => (cur.reverse :: acc).reverse
  | [], _, acc, true => ([] :: acc).reverse
  | c :: rest, cur, acc, false =>
    if isWsCh c then jsSplitWsGo rest [] (cur.reverse :: acc) true
    else jsSplitWsGo rest (c :: cur) acc false
  | c :: rest, _, acc, true =>
    if isWsCh c then jsSplitWsGo rest [] acc true
    else jsSplitWsGo rest [c] acc false

/-- JS `s.split(/\s+/)`: maximal whitespace runs are separators; a leading
run yields a leading empty token and a trailing run a trailing empty token. -/
def jsSplitWs (s : String) : List String :=
  (jsSplitWsGo s.data [] [] false).map fun l => ⟨l⟩

/-! ## Exact rationals for confidence scores -/

/-- The rational `n / d`; decimal literals of the source such as `0.75` are
written `q 75 100`. -/
def q (n d : Nat) : ℚ := mkRat n d

/-- Exact rational addition via `mkRat` (kernel-reducible). -/
def qAdd (a b : ℚ) : ℚ := mkRat (a.num * b.den + b.num * a.den) (a.den * b.den)

/-- Exact rational subtraction via `mkRat`. -/
def qSub (a b : ℚ) : ℚ := mkRat (a.num * b.den - b.num * a.den) (a.den * b.den)

/-- Exact rational multiplication via `mkRat`. -/
def qMul (a b : ℚ) : ℚ := mkRat (a.num * b.num) (a.den * b.den)

/-- Strict comparison `a < b` as a boolean (JS `a < b` on numbers). -/
def qLt (a b : ℚ) : Bool := Rat.blt a b

/-- `min a b` via `qLt`, mirroring `Math.min`. -/
def qMin (a b : ℚ) : ℚ := if qLt b a then b else a

/-! ## Stable sorting (JS `Array.prototype.sort` with a numeric comparator) -/

/-- Insert `x` before the first element `y` for which `gt y x` fails;
this keeps earlier elements ahead of later ones on ties. -/
def sortInsert {α : Type} (gt : α → α → Bool) (x : α) : List α → List α
  | [] => [x]
  | y :: ys => if gt y x then y :: sortInsert gt x ys else x :: y :: ys

/-- Stable sort placing elements with strictly greater `gt`-keys first;
models `arr.sort((a, b) => key b - key a)` (descending, stable). -/
def sortStable {α : Type} (gt : α → α → Bool) : List α → List α
  | [] => []
  | x :: xs => sortInsert gt x (sortStable gt xs)

/-- Deduplication via a `Set` of string keys, keeping first occurrences. -/
def dedupeByKey {α : Type} (key : α → String) : List α → List String → List α
  | [], _ => []
  | x :: xs, seen =>
    if seen.contains (key x) then dedupeByKey key xs seen
    else x :: dedupeByKey key xs (key x :: seen)

theorem mem_sortInsert {α : Type} (gt : α → α → Bool) (x c : α) :
    ∀ l : List α, c ∈ sortInsert gt x l ↔ c = x ∨ c ∈ l := by
  intro l
  induction l with
  | nil => simp [sortInsert]
  | cons y ys ih =>
    simp only [sortInsert]
    by_cases h : gt y x = true
    · rw [if_pos h]
      simp only [List.mem_cons, ih]
      tauto
    · rw [if_neg h]
      simp only [List.mem_cons]

theorem mem_sortStable {α : Type} (gt : α → α → Bool) (c : α) :
    ∀ l : List α, c ∈ sortStable gt l ↔ c ∈ l := by
  intro l
  induction l with
  | nil => simp [sortStable]
  | cons x xs ih =>
    simp [sortStable, mem_sortInsert, ih, List.mem_cons]

theorem length_sortInsert {α : Type} (gt : α → α → Bool) (x : α) :
    ∀ l : List α, (sortInsert gt x l).length = l.length + 1 := by
  intro l
  induction l with
  | nil => rfl
  | cons y ys ih =>
    by_cases h : gt y x = true <;> simp [sortInsert, h, ih]

theorem length_sortStable {α : Type} (gt : α → α → Bool) :
    ∀ l : List α, (sortStable gt l).length = l.length := by
  intro l
  induction l with
  | nil => rfl
  | cons x xs ih => simp [sortStable, length_sortInsert, ih]

/-! ## Levenshtein distance

Both the TestID strategy and the Text strategy compute the classical
Levenshtein matrix with unit costs.  The embedding computes the same matrix
row by row (`levRowGo` produces row `i` from row `i-1`). -/

/-- Produce the tail of matrix row `i` (positions `1..|b|`) from the previous
row (`prev`, starting at position `j-1`) and the entry to the left. -/
def levRowGo (ach : Char) : List Char → List Nat → Nat → List Nat
  | [], _, _ => []
  | bch :: bs, prev, left =>
    match prev with
    | [] => []
    | pDiag :: prest =>
      let pUp := prest.headD 0
      let cost := if ach = bch then 0 else 1
      let cur := Nat.min (Nat.min (left + 1) (pUp + 1)) (pDiag + cost)
      cur :: levRowGo ach bs prest cur

/-- Levenshtein distance between two character lists (unit costs). -/
def levenshteinL (a b : List Char) : Nat :=
  let init := List.range (b.length + 1)
  let final := a.foldl
    (fun prev ach =>
      let first := prev.headD 0 + 1
      first :: levRowGo ach b prev first)
    init
  final.getLastD 0

/-! ## Deterministic expansions of the source's regular expressions

Each regex used by the source is deterministic on its domain (captures are
runs over character classes that cannot cross their own delimiters, so no
backtracking can produce a different result); each is modelled by a scanner
that tries to match at a position and otherwise advances one character,
exactly like the leftmost-match rule of `String.prototype.match`. -/

/-- ASCII letter (`[a-z]` under the `i` flag). -/
def isAlphaCh (c : Char) : Bool :=
  (97 ≤ c.toNat && c.toNat ≤ 122) || (65 ≤ c.toNat && c.toNat ≤ 90)

/-- ASCII digit (`\d`). -/
def isDigitCh (c : Char) : Bool := 48 ≤ c.toNat && c.toNat ≤ 57

/-- Character class `[a-zA-Z0-9_-]` of the id/class fragment regexes. -/
def isIdCh (c : Char) : Bool := isAlphaCh c || isDigitCh c || c = '_' || c = '-'

/-- Quote characters of the class `["']`. -/
def isQuoteCh (c : Char) : Bool := c = '"' || c = '\''

/-- Case-insensitive literal match; returns the rest of the input. -/
def matchLitCI : List Char → List Char → Option (List Char)
  | [], cs => some cs
  | _ :: _, [] => none
  | l :: ls, c :: cs =>
    if toLowerCh l = toLowerCh c then matchLitCI ls cs else none

/-- Match one character from `set`; returns the rest. -/
def matchOneOf (set : List Char) : List Char → Option (List Char)
  | [] => none
  | c :: cs => if set.contains c then some cs else none

/-- Match `["']([^"']+)["']`: a quote, a nonempty run free of both quote
characters (the capture, in original case), and a closing quote (either
kind).  Returns the capture and the rest. -/
def matchQuoted (cs : List Char) : Option (List Char × List Char) :=
  match cs with
  | [] => none
  | c :: rest =>
    if isQuoteCh c then
      let cap := rest.takeWhile (fun x => !isQuoteCh x)
      match rest.dropWhile (fun x => !isQuoteCh x) with
      | [] => none
      | _ :: rest2 => if cap.isEmpty then none else some (cap, rest2)
    else none

/-- First match of `m` over the string, trying every start position from the
left (the leftmost-match rule). -/
def findFirstCapture {α : Type} (m : List Char → Option α) : List Char → Option α
  | [] => m []
  | c :: rest =>
    match m (c :: rest) with
    | some r => some r
    | none => findFirstCapture m rest

/-- All matches of a global regex: at each position try `m` (which returns
the matched text and the remaining input); on success resume after the
match, otherwise advance one character.  `fuel` bounds the scan by the
input length. -/
def gMatchesGo (m : List Char → Option (List Char × List Char)) :
    Nat → List Char → List (List Char)
  | 0, _ => []
  | _ + 1, [] => []
  | fuel + 1, c :: rest =>
    match m (c :: rest) with
    | some (txt, rest2) => txt :: gMatchesGo m fuel rest2
    | none => gMatchesGo m fuel rest

/-- All matches of a global regex over a string. -/
def gMatches (m : List Char → Option (List Char × List Char)) (s : List Char) :
    List (List Char) := gMatchesGo m (s.length + 1) s

/-- `replace(regex, repl)` with a global regex, same scanning rule. -/
def gReplaceGo (m : List Char → Option (List Char × List Char))
    (repl : List Char) : Nat → List Char → List Char
  | 0, cs => cs
  | _ + 1, [] => []
  | fuel + 1, c :: rest =>
    match m (c :: rest) with
    | some (_, rest2) => repl ++ gReplaceGo m repl fuel rest2
    | none => c :: gReplaceGo m repl fuel rest

/-- `s.replace(regex, repl)` for a global regex. -/
def gReplace (m : List Char → Option (List Char × List Char))
    (repl : List Char) (s : List Char) : List Char :=
  gReplaceGo m repl (s.length + 1) s

/-- Matcher for `#([a-zA-Z0-9_-]+)` (and `\.` for classes via `marker`):
the marker character followed by a nonempty id run; match text includes the
marker. -/
def mMarkerRun (marker : Char) (cs : List Char) :
    Option (List Char × List Char) :=
  match cs with
  | [] => none
  | c :: rest =>
    if c = marker then
      let run := rest.takeWhile isIdCh
      if run.isEmpty then none
      else some (marker :: run, rest.dropWhile isIdCh)
    else none

/-- Matcher for `\[([^\]]+)\]`: match text includes the brackets. -/
def mAttrFrag (cs : List Char) : Option (List Char × List Char) :=
  match cs with
  | [] => none
  | c :: rest =>
    if c = '[' then
      let run := rest.takeWhile (fun x => x ≠ ']')
      match rest.dropWhile (fun x => x ≠ ']') with
      | [] => none
      | _ :: rest2 => if run.isEmpty then none else some ('[' :: run ++ [']'], rest2)
    else none

/-- Matcher for `:nth-child\(\d+\)`. -/
def mNthFrag (cs : List Char) : Option (List Char × List Char) :=
  match matchLitCI ":nth-child(".data cs with
  | none => none
  | some rest =>
    let ds := rest.takeWhile isDigitCh
    if ds.isEmpty then none
    else
      match rest.dropWhile isDigitCh with
      | ')' :: rest2 => some (":nth-child(".data ++ ds ++ [')'], rest2)
      | _ => none

/-- Worker for `elemRuns`: the global regex `/^([a-z]+)|(?:\s)([a-z]+)/gi`.
`cur = some run` while collecting a letter run; `lastWs` records whether the
previous character allows a run to start (whitespace, or the very start of
the string for the `^` alternative). -/
def elemRunsGo : List Char → Option (List Char) → Bool → List (List Char)
  | [], some run, _ => [run.reverse]
  | [], none, _ => []
  | c :: rest, some run, _ =>
    if isAlphaCh c then elemRunsGo rest (some (c :: run)) false
    else run.reverse :: elemRunsGo rest none (isWsCh c)
  | c :: rest, none, lastWs =>
    if lastWs && isAlphaCh c then elemRunsGo rest (some [c]) false
    else elemRunsGo rest none (isWsCh c)

/-- All matches of `/^([a-z]+)|(?:\s)([a-z]+)/gi`, already trimmed (the
whitespace consumed by the second alternative is not part of the run). -/
def elemRuns (s : List Char) : List (List Char) := elemRunsGo s none true

/-! ## Data model (`src/core/types.ts`) -/

/-- The four strategy tags of the `HealingStrategy` union type. -/
inductive StrategyTag where
  | dataTestidRecovery
  | textContentMatching
  | cssHierarchyAnalysis
  | aiPoweredAnalysis
deriving DecidableEq

/-- Element information extracted from the page (`ElementInfo`).  The unused
fields `xpath`, `parent` and `siblings` are omitted: no embedded operation
reads them. -/
structure ElementInfo where
  tag : String
  id : Option String := none
  classes : List String := []
  text : Option String := none
  testId : Option String := none
  role : Option String := none
  ariaLabel : Option String := none
  typeAttr : Option String := none
  name : Option String := none
deriving DecidableEq

/-- The `metadata` record attached to a `HealingResult`; one constructor per
object literal the source attaches. -/
inductive Metadata where
  /-- `{ cached: true, useCount }` on the cache-hit path of `heal`. -/
  | cachedHit (useCount : Nat)
  /-- `{ noHealingNeeded: true }` when the original selector still resolves. -/
  | noHealingNeeded
  /-- `{ originalTestId, foundTestId, matchType }` from TestID recovery. -/
  | testIdInfo (originalTestId foundTestId matchType : String)
  /-- `{ originalText, foundText, similarity }` from Text matching. -/
  | textInfo (originalText foundText : String) (similarity : ℚ)
  /-- `{ originalSelector, transformationType }` from CSS hierarchy. -/
  | cssInfo (originalSelector transformationType : String)
  /-- `{ aiReasoning, totalSuggestions }` on AI success. -/
  | aiInfo (aiReasoning : Option String) (totalSuggestions : Nat)
  /-- `{ aiResponse }` when the AI suggested nothing. -/
  | aiNoSuggestions
  /-- `{ aiResponse, suggestions }` when no AI suggestion matched. -/
  | aiNoneMatched (suggestions : Nat)
deriving DecidableEq

/-- `HealingResult`, the sole return contract of healing operations. -/
structure HealingResult where
  success : Bool
  selector : String
  confidence : ℚ
  strategy : StrategyTag
  alternatives : List String
  error : Option String := none
  metadata : Option Metadata := none
deriving DecidableEq

/-- `HealingCacheEntry` (the `timestamp : Date` field is omitted: no
embedded operation reads it). -/
structure HealingCacheEntry where
  original : String
  healed : String
  confidence : ℚ
  strategy : StrategyTag
  useCount : Nat
deriving DecidableEq

/-- Per-selector counters of the flakiness tracker. -/
structure FlakStats where
  successes : Nat
  failures : Nat
deriving DecidableEq

/-- One row of `getFlakinessStats()`. -/
structure FlakRow where
  selector : String
  successes : Nat
  failures : Nat
  flakinessScore : ℚ
deriving DecidableEq

/-- `retry` configuration block. -/
structure RetryConfig where
  onTimeout : Bool := true
  onFlakiness : Bool := true
  maxRetries : Nat := 2
  initialBackoff : Nat := 1000
deriving DecidableEq

/-- Engine configuration after `mergeWithDefaults` (the `ollama` block is
represented by the parsed endpoint URL, see `UrlParts`; `telemetry` only
gates logging, which the embedding drops). -/
structure HealingConfig where
  enabled : Bool := true
  strategies : List StrategyTag :=
    [.dataTestidRecovery, .textContentMatching, .cssHierarchyAnalysis, .aiPoweredAnalysis]
  maxAttempts : Nat := 3
  cacheHealing : Bool := true
  retry : RetryConfig := {}

/-- `HealingStrategyOptions` (the `timeout` and `context` fields are unread
by the embedded operations and omitted). -/
structure HealOptions where
  expectedType : Option String := none
  maxElements : Option Nat := none

/-- One entry of the `suggestions` array of the parsed LLM JSON:
`selector`/`confidence`/`reasoning` as found (absent or non-string selector
is `none`; absent, `null` or non-numeric confidence is `none`). -/
structure AiSuggestionItem where
  selector : Option String := none
  confidence : Option ℚ := none
  reasoning : Option String := none

/-- Outcome of the first parsing layer of `parseAiSuggestions`: the regex
`/\{[\s\S]*"suggestions"[\s\S]*\}/` followed by `JSON.parse`. -/
inductive AiJsonLayer where
  /-- The regex found no candidate JSON object. -/
  | noMatch
  /-- The regex matched but `JSON.parse` threw (skips both fallbacks). -/
  | parseError
  /-- Parsed; `items` is the `suggestions` field when it is an array. -/
  | parsed (items : Option (List AiSuggestionItem))

/-- The JS-runtime view of one raw LLM response: the outcomes of the three
extraction layers of `parseAiSuggestions` applied to the response text. -/
structure AiRawResponse where
  jsonLayer : AiJsonLayer
  /-- Captures of the fallback regex `/"selector"\s*:\s*"([^"]+)"/g`. -/
  quotedSelectors : List String := []
  /-- Full matches of the selector-shape regexes (testid / role / text= /
  button:has-text), in pattern order. -/
  patternSelectors : List String := []

/-- The live page as an oracle consumed by the engine. -/
structure Page where
  /-- Outcome of `page.locator(sel).count() > 0`; a driver error during the
  probe counts as `false` (`checkSelectorExists` catches it). -/
  probe : String → Bool
  /-- Result of the `getAllTestIdElements` in-page extraction. -/
  testIdElements : List ElementInfo := []
  /-- Result stream of the `getAllTextElements` in-page extraction (the
  `maxElements` truncation is applied by the strategy model). -/
  textElements : List ElementInfo := []
  /-- Outcome of the `GET /api/tags` availability probe. -/
  aiAvailable : Bool := false
  /-- Outcome of `callOllama` (`none`: the call threw — timeout or non-OK
  status), with the response text viewed through its extraction layers. -/
  aiResponse : Option AiRawResponse := none

/-- `checkSelectorExists` of `strategies/utils.ts`: `count() > 0` with
driver errors caught as `false` (both absorbed into the `probe` oracle). -/
def checkSelectorExists (page : Page) (selector : String) : Bool :=
  page.probe selector

/-! ## Strategy: TestID Recovery (`data-testid-recovery.ts`) -/

namespace DataTestIdRecoveryStrategy

/-- The recognized stable-ID attributes, in source order. -/
def TEST_ID_ATTRIBUTES : List String :=
  ["data-testid", "data-test-id", "data-cy", "data-test", "testid"]

/-- At-position matcher for `\[<attr>[=~]["']([^"']+)["']\]` (`withBrackets`)
or `<attr>[=~]["']([^"']+)["']`, case-insensitively; returns the capture. -/
def mAttrValue (attr : String) (withBrackets : Bool) (cs : List Char) :
    Option (List Char) := do
  let cs ← if withBrackets then matchOneOf ['['] cs else some cs
  let cs ← matchLitCI attr.data cs
  let cs ← matchOneOf ['=', '~'] cs
  let (cap, cs) ← matchQuoted cs
  let _ ← if withBrackets then matchOneOf [']'] cs else some cs
  pure cap

/-- `extractTestId`: for each recognized attribute try the bracketed then
the unbracketed pattern over the whole selector; first capture wins. -/
def extractTestId (selector : String) : Option String :=
  let tryAttr := fun (attr : String) =>
    match findFirstCapture (mAttrValue attr true) selector.data with
    | some cap => some (String.mk cap)
    | none =>
      match findFirstCapture (mAttrValue attr false) selector.data with
      | some cap => some (String.mk cap)
      | none => none
  TEST_ID_ATTRIBUTES.firstM tryAttr

/-- `normalizeName`: lowercase and remove `-`, `_` and whitespace.  (The
source's second `replace(/([a-z])([A-Z])/g, '$1$2')` rewrites each match to
itself and is the identity.) -/
def normalizeName (name : String) : String :=
  ⟨(lowerStr name).data.filter fun c => !(c = '-' || c = '_' || isWsCh c)⟩

/-- `calculateSimilarity`: 1 on case-insensitive equality, 0 on an empty
side, otherwise `1 − levenshtein/maxLen`. -/
def calculateSimilarity (str1 str2 : String) : ℚ :=
  let s1 := lowerStr str1
  let s2 := lowerStr str2
  if s1 = s2 then 1
  else if s1.data.length = 0 then 0
  else if s2.data.length = 0 then 0
  else
    let distance := levenshteinL s2.data s1.data
    let maxLen := Nat.max s1.data.length s2.data.length
    qSub 1 (q distance maxLen)

/-- A candidate of the TestID strategy. -/
structure Candidate where
  selector : String
  testId : String
  confidence : ℚ
  matchType : String
deriving DecidableEq

/-- The candidates contributed by one page element in `findCandidates`:
the similarity gate, the four special match types, the `expectedType`
bonus, and one selector per recognized attribute. -/
def candidatesFor (originalTestId : String) (expectedType : Option String)
    (element : ElementInfo) : List Candidate :=
  match element.testId with
  | none => []
  | some tid =>
    if tid = "" then []   -- `if (!element.testId) continue`
    else
      let similarity := calculateSimilarity originalTestId tid
      if qLt (q 1 2) similarity then
        let base :=
          if lowerStr originalTestId = lowerStr tid then (q 95 100, "exact")
          else if normalizeName originalTestId = normalizeName tid then
            (q 9 10, "normalized")
          else if strIncludes (lowerStr tid) (lowerStr originalTestId) then
            (q 8 10, "contains")
          else if strIncludes (lowerStr originalTestId) (lowerStr tid) then
            (q 75 100, "contained-by")
          else (similarity, "partial")
        let confidence :=
          match expectedType with
          | some t => if element.tag = lowerStr t then
              qMin (qAdd base.1 (q 1 10)) 1 else base.1
          | none => base.1
        TEST_ID_ATTRIBUTES.map fun attr =>
          { selector := "[" ++ attr ++ "=\"" ++ tid ++ "\"]"
            testId := tid
            confidence := confidence
            matchType := base.2 }
      else []

/-- `findCandidates`: per-element candidates in element order, then the
stable descending sort by confidence. -/
def findCandidates (originalTestId : String) (elements : List ElementInfo)
    (expectedType : Option String) : List Candidate :=
  sortStable (fun a b => qLt b.confidence a.confidence)
    (elements.flatMap (candidatesFor originalTestId expectedType))

/-- `DataTestIdRecoveryStrategy.heal`. -/
def heal (page : Page) (brokenSelector : String) (options : HealOptions) :
    HealingResult :=
  match extractTestId brokenSelector with
  | none =>
    { success := false, selector := brokenSelector, confidence := 0
      strategy := .dataTestidRecovery, alternatives := []
      error := some "No test ID pattern found in selector" }
  | some extractedTestId =>
    let candidates :=
      findCandidates extractedTestId page.testIdElements options.expectedType
    match candidates.find? (fun c => checkSelectorExists page c.selector) with
    | some candidate =>
      { success := true, selector := candidate.selector
        confidence := candidate.confidence
        strategy := .dataTestidRecovery
        alternatives :=
          ((candidates.filter fun c => c.selector ≠ candidate.selector).map
            (·.selector))
        metadata := some (.testIdInfo extractedTestId candidate.testId
          candidate.matchType) }
    | none =>
      { success := false, selector := brokenSelector, confidence := 0
        strategy := .dataTestidRecovery
        alternatives := candidates.map (·.selector)
        error := some "No matching test ID elements found on page" }

end DataTestIdRecoveryStrategy

/-! ## Strategy: Text Content Matching (`text-content-matching.ts`) -/

namespace TextContentMatchingStrategy

/-- `SIMILARITY_THRESHOLD = 0.8`. -/
def SIMILARITY_THRESHOLD : ℚ := q 8 10

/-- `MAX_ELEMENTS = 500`. -/
def MAX_ELEMENTS : Nat := 500

/-- At-position matcher for `text[=~*]["']([^"']+)["']` (case-insensitive). -/
def mTextEq (cs : List Char) : Option (List Char) := do
  let cs ← matchLitCI "text".data cs
  let cs ← matchOneOf ['=', '~', '*'] cs
  let (cap, _) ← matchQuoted cs
  pure cap

/-- At-position matcher for `:has-text\(["']([^"']+)["']\)`. -/
def mHasText (cs : List Char) : Option (List Char) := do
  let cs ← matchLitCI ":has-text(".data cs
  let (cap, cs) ← matchQuoted cs
  let _ ← matchOneOf [')'] cs
  pure cap

/-- At-position matcher for `getByText\(["']([^"']+)["']\)`. -/
def mGetByText (cs : List Char) : Option (List Char) := do
  let cs ← matchLitCI "getByText(".data cs
  let (cap, cs) ← matchQuoted cs
  let _ ← matchOneOf [')'] cs
  pure cap

/-- At-position matcher for `contains\([^,]+,\s*["']([^"']+)["']\)`: the
greedy `[^,]+` cannot cross the comma, so the scan is deterministic. -/
def mXPathContains (cs : List Char) : Option (List Char) := do
  let cs ← matchLitCI "contains(".data cs
  let arg := cs.takeWhile (fun c => c ≠ ',')
  if arg.isEmpty then none
  else
    match cs.dropWhile (fun c => c ≠ ',') with
    | [] => none
    | _ :: cs =>
      let cs := cs.dropWhile isWsCh
      let (cap, cs) ← matchQuoted cs
      let _ ← matchOneOf [')'] cs
      pure cap

/-- At-position matcher for `(?:innerText|textContent)[=~]["']([^"']+)["']`. -/
def mTextProp (cs : List Char) : Option (List Char) := do
  let cs ←
    match matchLitCI "innerText".data cs with
    | some rest => some rest
    | none => matchLitCI "textContent".data cs
  let cs ← matchOneOf ['=', '~'] cs
  let (cap, _) ← matchQuoted cs
  pure cap

/-- `extractTextContent`: the five patterns in source order; the first
match's capture is trimmed and returned. -/
def extractTextContent (selector : String) : Option String :=
  let pats := [mTextEq, mHasText, mGetByText, mXPathContains, mTextProp]
  pats.firstM (fun p =>
    match findFirstCapture p selector.data with
    | some cap => if cap.isEmpty then none else some (jsTrim (String.mk cap))
    | none => none)

/-- `levenshteinSimilarity`: 0 on an empty side, else `1 − distance/maxLen`
(rows of the source's matrix range over `str2`). -/
def levenshteinSimilarity (str1 str2 : String) : ℚ :=
  let len1 := str1.data.length
  let len2 := str2.data.length
  if len1 = 0 ∨ len2 = 0 then 0
  else
    let distance := levenshteinL str2.data str1.data
    qSub 1 (q distance (Nat.max len1 len2))

/-- `wordOverlapSimilarity`: tokens of length > 2, distinct-token overlap
normalized by the larger (pre-deduplication) token count. -/
def wordOverlapSimilarity (text1 text2 : String) : ℚ :=
  let words1 := (jsSplitWs text1).filter fun w => w.data.length > 2
  let words2 := (jsSplitWs text2).filter fun w => w.data.length > 2
  if words1.length = 0 ∨ words2.length = 0 then 0
  else
    let overlap :=
      ((dedupeByKey (fun w => w) words1 []).filter
        (fun w => words2.contains w)).length
    q overlap (Nat.max words1.length words2.length)

/-- `calculateTextSimilarity`: lowercase+trim equality, containment,
Levenshtein for close lengths, word overlap otherwise. -/
def calculateTextSimilarity (text1 text2 : String) : ℚ :=
  let s1 := jsTrim (lowerStr text1)
  let s2 := jsTrim (lowerStr text2)
  if s1 = s2 then 1
  else
    let p := if s1.data.length < s2.data.length then (s1, s2) else (s2, s1)
    if strIncludes p.2 p.1 then
      qAdd (q 85 100) (qMul (q p.1.data.length p.2.data.length) (q 15 100))
    else if s1.data.length - s2.data.length < 10 ∧
        s2.data.length - s1.data.length < 10 then
      levenshteinSimilarity s1 s2
    else wordOverlapSimilarity s1 s2

/-- One escaped character of `escapeSelector` (quote and backslash escaping,
newline/carriage-return/tab to spaces). -/
def escapeCh (c : Char) : List Char :=
  if c = '\\' then ['\\', '\\']
  else if c = '"' then ['\\', '"']
  else if c = '\n' ∨ c = '\r' ∨ c = '\t' then [' ']
  else [c]

/-- Collapse every whitespace run to a single space (`replace(/\s+/g, ' ')`). -/
def collapseWs : List Char → Bool → List Char
  | [], _ => []
  | c :: rest, inWs =>
    if isWsCh c then
      if inWs then collapseWs rest true else ' ' :: collapseWs rest true
    else c :: collapseWs rest false

/-- `escapeSelector`. -/
def escapeSelector (text : String) : String :=
  jsTrim ⟨collapseWs (text.data.flatMap escapeCh) false⟩

/-- `generateTextSelectors`: the selector variants for one element. -/
def generateTextSelectors (element : ElementInfo) (originalText : String) :
    List String :=
  let escapedText := escapeSelector (element.text.getD "")
  let escapedOriginal := escapeSelector originalText
  let base := ["text=\"" ++ escapedText ++ "\""]
  let base := base ++
    (if escapedText ≠ escapedOriginal then
      ["text=\"" ++ escapedOriginal ++ "\""] else [])
  let base := base ++ [":has-text(\"" ++ escapedText ++ "\")"]
  let base := base ++
    (if element.tag = "button" then
      ["button:has-text(\"" ++ escapedText ++ "\")",
       "button >> text=\"" ++ escapedText ++ "\""]
    else if element.tag = "a" then
      ["a:has-text(\"" ++ escapedText ++ "\")"]
    else if element.tag = "input" ∨ element.tag = "textarea" then
      match element.ariaLabel with
      | some l =>
        if l ≠ "" then ["[aria-label=\"" ++ escapeSelector l ++ "\"]"] else []
      | none => []
    else [])
  let base := base ++
    (match element.role with
    | some r =>
      if r ≠ "" then ["[role=\"" ++ r ++ "\"]:has-text(\"" ++ escapedText ++ "\")"]
      else []
    | none => [])
  let base := base ++ ["[title=\"" ++ escapedText ++ "\"]"]
  let base := base ++ ["[aria-label=\"" ++ escapedText ++ "\"]"]
  base ++
    (if escapedText.data.length > 20 then
      ["text*=\"" ++ String.mk (escapedText.data.take 15) ++ "\""]
    else [])

/-- A candidate of the Text strategy. -/
structure Candidate where
  selector : String
  text : String
  confidence : ℚ
deriving DecidableEq

/-- The candidates contributed by one element of `findCandidates`:
similarity threshold, exact/trim-exact boosts, `expectedType` bonus, and
one candidate per generated selector variant. -/
def candidatesFor (originalText : String) (expectedType : Option String)
    (element : ElementInfo) : List Candidate :=
  match element.text with
  | none => []
  | some text =>
    if text = "" then []   -- `if (!element.text) continue`
    else
      let similarity := calculateTextSimilarity originalText text
      if ¬ qLt similarity SIMILARITY_THRESHOLD then
        let c0 :=
          if lowerStr text = lowerStr originalText then q 95 100
          else if lowerStr (jsTrim text) = lowerStr (jsTrim originalText) then
            q 92 100
          else similarity
        let confidence :=
          match expectedType with
          | some t =>
            if element.tag = lowerStr t then qMin (qAdd c0 (q 5 100)) 1 else c0
          | none => c0
        (generateTextSelectors element originalText).map fun s =>
          { selector := s, text := text, confidence := confidence }
      else []

/-- `findCandidates` of the Text strategy: per-element candidates, stable
descending sort, top 10. -/
def findCandidates (originalText : String) (elements : List ElementInfo)
    (expectedType : Option String) : List Candidate :=
  (sortStable (fun a b => qLt b.confidence a.confidence)
    (elements.flatMap (candidatesFor originalText expectedType))).take 10

/-- `TextContentMatchingStrategy.heal`. -/
def heal (page : Page) (brokenSelector : String) (options : HealOptions) :
    HealingResult :=
  match extractTextContent brokenSelector with
  | none =>
    { success := false, selector := brokenSelector, confidence := 0
      strategy := .textContentMatching, alternatives := []
      error := some "No text pattern found in selector" }
  | some extractedText =>
    -- `if (!extractedText)`: a capture that trims to "" is falsy too
    if extractedText = "" then
      { success := false, selector := brokenSelector, confidence := 0
        strategy := .textContentMatching, alternatives := []
        error := some "No text pattern found in selector" }
    else
    let maxElements :=
      match options.maxElements with
      | some n => if n = 0 then MAX_ELEMENTS else n   -- `options.maxElements ||`
      | none => MAX_ELEMENTS
    let elements := page.textElements.take maxElements
    let candidates := findCandidates extractedText elements options.expectedType
    match candidates.find? (fun c => checkSelectorExists page c.selector) with
    | some candidate =>
      { success := true, selector := candidate.selector
        confidence := candidate.confidence
        strategy := .textContentMatching
        alternatives :=
          ((candidates.filter fun c => c.selector ≠ candidate.selector).map
            (·.selector))
        metadata := some (.textInfo extractedText candidate.text
          candidate.confidence) }
    | none =>
      { success := false, selector := brokenSelector, confidence := 0
        strategy := .textContentMatching
        alternatives := candidates.map (·.selector)
        error := some "No matching text elements found on page" }

end TextContentMatchingStrategy

/-! ## Strategy: CSS Hierarchy Analysis (`css-hierarchy-analysis.ts`) -/

namespace CssHierarchyAnalysisStrategy

/-- Join strings with a separator (JS `Array.prototype.join`). -/
def strJoin (sep : String) (l : List String) : String :=
  ⟨List.intercalate sep.data (l.map (·.data))⟩

/-- Result of `analyzeSelector`. -/
structure SelectorAnalysis where
  hasId : Bool
  ids : List String
  hasClass : Bool
  classes : List String
  hasElement : Bool
  elements : List String
  hasAttribute : Bool
  attributes : List String
  hasNthChild : Bool
  nthChildren : List String
  parts : List String
  depth : Nat

/-- `analyzeSelector`: shallow syntactic parse of the broken selector. -/
def analyzeSelector (selector : String) : SelectorAnalysis :=
  let parts := jsSplitWs selector
  { hasId := strIncludes selector "#"
    ids := (gMatches (mMarkerRun '#') selector.data).map
      fun m => String.mk (m.drop 1)            -- `id.substring(1)`
    hasClass := strIncludes selector "."
    classes := (gMatches (mMarkerRun '.') selector.data).map
      fun m => String.mk (m.drop 1)            -- `cls.substring(1)`
    hasElement :=
      match selector.data with                 -- `/^[a-z]/i.test(selector)`
      | [] => false
      | c :: _ => isAlphaCh c
    elements := (elemRuns selector.data).map
      fun m => String.mk (m.map toLowerCh)     -- `el.trim().toLowerCase()`
    hasAttribute := strIncludes selector "["
    attributes := (gMatches mAttrFrag selector.data).map String.mk
    hasNthChild := strIncludes selector ":nth-child"
    nthChildren := (gMatches mNthFrag selector.data).map String.mk
    parts := parts
    depth := parts.length }

/-- An alternative produced by `generateAlternatives`. -/
structure Alternative where
  selector : String
  confidence : ℚ
  reason : String
deriving DecidableEq

/-- `generateAlternatives`: the fixed family of syntactic transforms, each
with its a-priori confidence, deduplicated (first occurrence kept) and
stably sorted by descending confidence. -/
def generateAlternatives (analysis : SelectorAnalysis) : List Alternative :=
  let alternatives : List Alternative := []
  -- Strategy 1: remove IDs
  let alternatives := alternatives ++
    (if analysis.hasId ∧ analysis.parts.length > 1 then
      let withoutIds := strJoin " "
        (((analysis.parts.map fun part =>
            jsTrim ⟨gReplace (mMarkerRun '#') [] part.data⟩).filter
          fun part => part.data.length > 0))
      if withoutIds ≠ "" then
        [{ selector := withoutIds, confidence := q 7 10, reason := "removed-ids" }]
      else []
    else [])
  -- Strategy 2: remove nth-child
  let alternatives := alternatives ++
    (if analysis.hasNthChild then
      let withoutNth := strJoin " "
        ((analysis.parts.map fun part =>
            (⟨gReplace mNthFrag [] part.data⟩ : String)).filter
          fun part => part.data.length > 0)
      if withoutNth ≠ "" then
        [{ selector := withoutNth, confidence := q 75 100
           reason := "removed-nth-child" }]
      else []
    else [])
  -- Strategy 3: last two whitespace-separated parts
  let alternatives := alternatives ++
    (if analysis.depth > 2 then
      [{ selector := strJoin " " (analysis.parts.drop (analysis.parts.length - 2))
         confidence := q 65 100, reason := "simplified-hierarchy" }]
    else [])
  -- Strategy 4: classes only, then each class singly
  let alternatives := alternatives ++
    (if analysis.hasClass ∧ analysis.classes.length > 0 then
      let classOnly := strJoin "" (analysis.classes.map fun cls => "." ++ cls)
      { selector := classOnly, confidence := q 6 10, reason := "class-only" } ::
        analysis.classes.map fun cls =>
          { selector := "." ++ cls, confidence := q 55 100
            reason := "single-class" }
    else [])
  -- Strategy 5: last element with all classes
  let alternatives := alternatives ++
    (if analysis.hasElement ∧ analysis.hasClass ∧ analysis.elements.length > 0 then
      let element := analysis.elements.getLastD ""
      let classOnly := strJoin "" (analysis.classes.map fun cls => "." ++ cls)
      [{ selector := element ++ classOnly, confidence := q 68 100
         reason := "element-with-classes" }]
    else [])
  -- Strategy 6: child combinator
  let alternatives := alternatives ++
    (if analysis.parts.length > 1 then
      [{ selector := strJoin " > " analysis.parts, confidence := q 58 100
         reason := "direct-child" }]
    else [])
  -- Strategy 7: each attribute fragment alone
  let alternatives := alternatives ++
    (if analysis.hasAttribute ∧ analysis.attributes.length > 0 then
      analysis.attributes.map fun attr =>
        { selector := attr, confidence := q 72 100, reason := "attribute-only" }
    else [])
  -- Strategy 8: first element with first class
  let alternatives := alternatives ++
    (if analysis.elements.length > 0 ∧ analysis.classes.length > 0 then
      [{ selector := analysis.elements.headD "" ++ "." ++ analysis.classes.headD ""
         confidence := q 62 100, reason := "first-element-first-class" }]
    else [])
  -- Strategy 9: last element only
  let alternatives := alternatives ++
    (if analysis.elements.length > 0 then
      [{ selector := analysis.elements.getLastD "", confidence := q 1 2
         reason := "last-element-only" }]
    else [])
  -- Strategy 10: drop the last part
  let alternatives := alternatives ++
    (if analysis.parts.length > 1 then
      [{ selector := strJoin " " (analysis.parts.take (analysis.parts.length - 1))
         confidence := q 45 100, reason := "parent-element" }]
    else [])
  sortStable (fun a b => qLt b.confidence a.confidence)
    (dedupeByKey (·.selector) alternatives [])

/-- `CssHierarchyAnalysisStrategy.heal`.  The source's post-loop
"multiple valid candidates" branch is unreachable (the loop returns on the
first valid candidate), so the validation loop is exactly a first-match
search. -/
def heal (page : Page) (brokenSelector : String) : HealingResult :=
  let analysis := analyzeSelector brokenSelector
  let candidates := generateAlternatives analysis
  match candidates.find? (fun c => checkSelectorExists page c.selector) with
  | some candidate =>
    { success := true, selector := candidate.selector
      confidence := candidate.confidence
      strategy := .cssHierarchyAnalysis
      alternatives :=
        ((candidates.filter fun c => c.selector ≠ candidate.selector).map
          (·.selector))
      metadata := some (.cssInfo brokenSelector candidate.reason) }
  | none =>
    { success := false, selector := brokenSelector, confidence := 0
      strategy := .cssHierarchyAnalysis
      alternatives := candidates.map (·.selector)
      error := some "No CSS hierarchy alternatives found" }

end CssHierarchyAnalysisStrategy

/-! ## URL validation (`strategies/utils.ts`) -/

/-- The hostname and port of a URL as parsed by the WHATWG `new URL(...)`
constructor; `port` is the empty string when no explicit non-default port is
present.  A `validateUrl` input of `none` models a URL on which the
constructor throws. -/
structure UrlParts where
  hostname : String
  port : String
deriving DecidableEq

/-- `validateUrl`: hostname must equal an allow-listed host or end with
`"." + host` (subdomain), lowercased; an explicit port must be one of
80, 443, 8080, 11434.  A parse failure returns `false`. -/
def validateUrl (url : Option UrlParts)
    (allowedHosts : List String := ["localhost", "127.0.0.1"]) : Bool :=
  match url with
  | none => false
  | some u =>
    let hostname := lowerStr u.hostname
    let isAllowed := allowedHosts.any fun host =>
      hostname = host || endsWithStr hostname ("." ++ host)
    if !isAllowed then false
    else if u.port ≠ "" ∧ ¬ (["80", "443", "8080", "11434"].contains u.port) then
      false
    else true

/-! ## Strategy: AI-Powered Analysis (`ai-powered-analysis.ts`) -/

namespace AiPoweredAnalysisStrategy

/-- A suggestion as produced by `parseAiSuggestions`. -/
structure Suggestion where
  selector : String
  confidence : ℚ
  reasoning : Option String := none
deriving DecidableEq

/-- The constructor of `AiPoweredAnalysisStrategy`: validates the configured
Ollama URL and throws on failure. -/
def construct (ollamaUrl : Option UrlParts) : Except String Unit :=
  if validateUrl ollamaUrl then .ok ()
  else .error
    "Invalid Ollama URL. Only localhost and 127.0.0.1 are allowed for security."

/-- `parseAiSuggestions` over the extraction-layer view of the response:
the parsed `suggestions` array (confidence defaulted to 0.7 when falsy),
then the quoted-`"selector"` fallback at 0.7, then the selector-shape
fallback at 0.6; a `JSON.parse` exception skips both fallbacks.  Finally
deduplicate (first kept), sort by confidence descending, keep the top 5. -/
def parseAiSuggestions (response : AiRawResponse) : List Suggestion :=
  match response.jsonLayer with
  | .parseError => []
  | layer =>
    let s1 : List Suggestion :=
      match layer with
      | .parsed (some items) =>
        items.filterMap fun item =>
          match item.selector with
          | some sel =>
            if sel = "" then none   -- `if (item.selector && ...)`
            else some
              { selector := jsTrim sel
                confidence :=
                  match item.confidence with   -- `item.confidence || 0.7`
                  | some c => if c = 0 then q 7 10 else c
                  | none => q 7 10
                reasoning := item.reasoning }
          | none => none
      | _ => []
    let s2 := if s1.isEmpty then
        response.quotedSelectors.map fun m =>
          { selector := jsTrim m, confidence := q 7 10 }
      else s1
    let s3 := if s2.isEmpty then
        response.patternSelectors.map fun m =>
          { selector := m, confidence := q 6 10 }
      else s2
    (sortStable (fun a b => qLt b.confidence a.confidence)
      (dedupeByKey (·.selector) s3 [])).take 5

/-- `AiPoweredAnalysisStrategy.heal`.  `extractPageContext` and
`buildPrompt` only feed the remote call, whose outcome is the `aiResponse`
oracle of the page; they have no other observable effect. -/
def heal (page : Page) (brokenSelector : String) : HealingResult :=
  if !page.aiAvailable then
    { success := false, selector := brokenSelector, confidence := 0
      strategy := .aiPoweredAnalysis, alternatives := []
      error := some "Ollama is not available. Please ensure Ollama is running." }
  else
    match page.aiResponse with
    | none =>
      -- `callOllama` threw (timeout or API error): caught by the outer catch
      { success := false, selector := brokenSelector, confidence := 0
        strategy := .aiPoweredAnalysis, alternatives := []
        error := some "AI analysis failed" }
    | some raw =>
      let suggestions := parseAiSuggestions raw
      if suggestions.isEmpty then
        { success := false, selector := brokenSelector, confidence := 0
          strategy := .aiPoweredAnalysis, alternatives := []
          error := some "AI did not suggest any alternatives"
          metadata := some .aiNoSuggestions }
      else
        match suggestions.find? (fun s => checkSelectorExists page s.selector) with
        | some suggestion =>
          { success := true, selector := suggestion.selector
            confidence := suggestion.confidence
            strategy := .aiPoweredAnalysis
            alternatives :=
              ((suggestions.filter fun s => s.selector ≠ suggestion.selector).map
                (·.selector))
            metadata := some (.aiInfo suggestion.reasoning suggestions.length) }
        | none =>
          { success := false, selector := brokenSelector, confidence := 0
            strategy := .aiPoweredAnalysis
            alternatives := suggestions.map (·.selector)
            error := some "None of the AI suggestions matched elements on the page"
            metadata := some (.aiNoneMatched suggestions.length) }

end AiPoweredAnalysisStrategy

/-! ## The Healing Engine (`core/healer.ts`) -/

namespace HealingEngine

/-- Mutable state of one engine instance: the healing cache (a JS `Map`
modelled pointwise) and the flakiness tracker (a `Map` modelled as an
association list because `getFlakinessStats` iterates over it). -/
structure EngineState where
  cache : String → Option HealingCacheEntry
  flakiness : List (String × FlakStats)

/-- `Map.set` on the cache. -/
def cacheSet (cache : String → Option HealingCacheEntry) (k : String)
    (v : HealingCacheEntry) : String → Option HealingCacheEntry :=
  fun k' => if k' = k then some v else cache k'

/-- `Map.delete` on the cache. -/
def cacheErase (cache : String → Option HealingCacheEntry) (k : String) :
    String → Option HealingCacheEntry :=
  fun k' => if k' = k then none else cache k'

/-- `Map.get` on the flakiness tracker. -/
def flakGet (flak : List (String × FlakStats)) (k : String) :
    Option FlakStats :=
  (flak.find? fun p => p.1 = k).map (·.2)

/-- `Map.set` on the flakiness tracker (replace or append). -/
def flakSet (flak : List (String × FlakStats)) (k : String) (v : FlakStats) :
    List (String × FlakStats) :=
  match flak with
  | [] => [(k, v)]
  | (k', v') :: t => if k' = k then (k, v) :: t else (k', v') :: flakSet t k v

/-- `trackSuccess`. -/
def trackSuccess (flak : List (String × FlakStats)) (selector : String) :
    List (String × FlakStats) :=
  let stats := (flakGet flak selector).getD { successes := 0, failures := 0 }
  flakSet flak selector { stats with successes := stats.successes + 1 }

/-- `trackFailure`. -/
def trackFailure (flak : List (String × FlakStats)) (selector : String) :
    List (String × FlakStats) :=
  let stats := (flakGet flak selector).getD { successes := 0, failures := 0 }
  flakSet flak selector { stats with failures := stats.failures + 1 }

/-- The result returned when healing is disabled. -/
def disabledResult (brokenSelector : String) : HealingResult :=
  { success := false, selector := brokenSelector, confidence := 0
    strategy := .dataTestidRecovery, alternatives := []
    error := some "Healing is disabled" }

/-- The result returned from the cache-hit path (`entry` already bumped). -/
def cachedResult (entry : HealingCacheEntry) : HealingResult :=
  { success := true, selector := entry.healed, confidence := entry.confidence
    strategy := entry.strategy, alternatives := []
    metadata := some (.cachedHit entry.useCount) }

/-- The result returned when the original selector still resolves. -/
def noHealingNeededResult (brokenSelector : String) : HealingResult :=
  { success := true, selector := brokenSelector, confidence := 1
    strategy := .dataTestidRecovery, alternatives := []
    metadata := some .noHealingNeeded }

/-- The synthetic failure returned when no strategy ever ran. -/
def allFailedResult (brokenSelector : String) : HealingResult :=
  { success := false, selector := brokenSelector, confidence := 0
    strategy := .dataTestidRecovery, alternatives := []
    error := some "All healing strategies failed" }

/-- `this.strategies.get(name).heal(...)`: the strategy map is populated
with all four strategies by `initializeStrategies`, so lookup always
succeeds. -/
def runStrategy (tag : StrategyTag) (page : Page) (brokenSelector : String)
    (options : HealOptions) : HealingResult :=
  match tag with
  | .dataTestidRecovery =>
    DataTestIdRecoveryStrategy.heal page brokenSelector options
  | .textContentMatching =>
    TextContentMatchingStrategy.heal page brokenSelector options
  | .cssHierarchyAnalysis =>
    CssHierarchyAnalysisStrategy.heal page brokenSelector
  | .aiPoweredAnalysis =>
    AiPoweredAnalysisStrategy.heal page brokenSelector

/-- Outcome of one pass over the configured strategy list. -/
inductive StratOut where
  /-- A strategy returned `success`; `invoked` lists every strategy invoked
  so far (a ghost log of `strategy.heal` calls). -/
  | found (result : HealingResult) (tag : StrategyTag)
      (invoked : List StrategyTag)
  /-- All strategies of this pass failed; `last` is the most recent result. -/
  | exhausted (last : Option HealingResult) (invoked : List StrategyTag)

/-- The inner `for (const strategyName of strategies)` loop of `heal`. -/
def runStrategyList (page : Page) (brokenSelector : String)
    (options : HealOptions) :
    List StrategyTag → Option HealingResult → List StrategyTag → StratOut
  | [], last, invoked => .exhausted last invoked
  | tag :: rest, _, invoked =>
    let result := runStrategy tag page brokenSelector options
    if result.success then .found result tag (invoked ++ [tag])
    else runStrategyList page brokenSelector options rest (some result)
      (invoked ++ [tag])

/-- The outer `for (let attempt = 0; attempt < maxAttempts; ...)` loop
(the backoff sleep between attempts has no observable effect here). -/
def healLoop (cfg : HealingConfig) (page : Page) (brokenSelector : String)
    (options : HealOptions) :
    Nat → Option HealingResult → List StrategyTag →
    Option (HealingResult × StrategyTag) × Option HealingResult × List StrategyTag
  | 0, last, invoked => (none, last, invoked)
  | n + 1, last, invoked =>
    match runStrategyList page brokenSelector options cfg.strategies last invoked with
    | .found result tag invoked' => (some (result, tag), some result, invoked')
    | .exhausted last' invoked' =>
      healLoop cfg page brokenSelector options n last' invoked'

/-- What one `heal` call produces: its `HealingResult` plus the updated
engine state, with a ghost log of the strategies invoked. -/
structure HealOutcome where
  result : HealingResult
  cache : String → Option HealingCacheEntry
  flakiness : List (String × FlakStats)
  invoked : List StrategyTag

/-- Steps 3–5 of `heal`: probe the original selector, then dispatch
strategies, cache and track the outcome. -/
def healAfterCache (cfg : HealingConfig) (page : Page)
    (brokenSelector : String) (options : HealOptions)
    (cache : String → Option HealingCacheEntry)
    (flakiness : List (String × FlakStats)) : HealOutcome :=
  if checkSelectorExists page brokenSelector then
    { result := noHealingNeededResult brokenSelector
      cache := cache
      flakiness := trackSuccess flakiness brokenSelector
      invoked := [] }
  else
    match healLoop cfg page brokenSelector options cfg.maxAttempts none [] with
    | (some (result, tag), _, invoked) =>
      { result := result
        cache :=
          if cfg.cacheHealing then
            cacheSet cache brokenSelector
              { original := brokenSelector, healed := result.selector
                confidence := result.confidence, strategy := tag, useCount := 1 }
          else cache
        flakiness := trackSuccess flakiness result.selector
        invoked := invoked }
    | (none, last, invoked) =>
      { result := last.getD (allFailedResult brokenSelector)
        cache := cache
        flakiness := trackFailure flakiness brokenSelector
        invoked := invoked }

/-- `HealingEngine.heal`. -/
def heal (cfg : HealingConfig) (page : Page) (brokenSelector : String)
    (options : HealOptions) (st : EngineState) : HealOutcome :=
  if !cfg.enabled then
    { result := disabledResult brokenSelector, cache := st.cache
      flakiness := st.flakiness, invoked := [] }
  else if cfg.cacheHealing then
    match st.cache brokenSelector with
    | some entry =>
      let bumped := { entry with useCount := entry.useCount + 1 }
      let cache₁ := cacheSet st.cache brokenSelector bumped
      if checkSelectorExists page entry.healed then
        { result := cachedResult bumped, cache := cache₁
          flakiness := st.flakiness, invoked := [] }
      else
        healAfterCache cfg page brokenSelector options
          (cacheErase cache₁ brokenSelector) st.flakiness
    | none => healAfterCache cfg page brokenSelector options st.cache st.flakiness
  else healAfterCache cfg page brokenSelector options st.cache st.flakiness

/-- `clearCache`: clears the healing cache (and nothing else). -/
def clearCache (st : EngineState) : EngineState :=
  { st with cache := fun _ => none }

/-- `getFlakinessStats`: rows with nonzero flakiness score, sorted by score
descending (stable). -/
def getFlakinessStats (flakiness : List (String × FlakStats)) : List FlakRow :=
  let stats := flakiness.filterMap fun p =>
    let total := p.2.successes + p.2.failures
    let flakinessScore : ℚ := if total > 0 then q p.2.failures total else 0
    if qLt 0 flakinessScore then
      some { selector := p.1, successes := p.2.successes
             failures := p.2.failures, flakinessScore := flakinessScore }
    else none
  sortStable (fun a b => qLt b.flakinessScore a.flakinessScore) stats

/-- `healthCheck` status values. -/
inductive HealthStatus where
  | healthy
  | degraded
  | offline
deriving DecidableEq

/-- `healthCheck`: the strategy map always contains the AI strategy
(`initializeStrategies` registers all four), so the Ollama endpoint is
always probed (`aiProbeOk` is the oracle outcome: `response.ok`, with fetch
errors and the 5s abort as `false`); the other three strategies are
reported available unconditionally. -/
def healthCheck (aiProbeOk : Bool) : HealthStatus :=
  let strategyHealth := [aiProbeOk, true, true, true]
  let allHealthy := strategyHealth.all id
  let someHealthy := strategyHealth.any id
  if allHealthy then .healthy else if someHealthy then .degraded else .offline

/-- `initializeStrategies`: the three deterministic strategies construct
unconditionally; constructing the AI strategy validates the configured
Ollama endpoint and throws on failure. -/
def initializeStrategies (ollamaUrl : Option UrlParts) : Except String Unit :=
  AiPoweredAnalysisStrategy.construct ollamaUrl

/-- The `HealingEngine` constructor: fresh state, strategies initialized
(which can throw on an invalid Ollama URL). -/
def mkEngine (_cfg : HealingConfig) (ollamaUrl : Option UrlParts) :
    Except String EngineState :=
  match initializeStrategies ollamaUrl with
  | .error e => .error e
  | .ok _ => .ok { cache := fun _ => none, flakiness := [] }

end HealingEngine

/-! ## Retry Handler (`playwright/retry-handler.ts`) -/

namespace RetryHandler

/-- The timeout substrings of `shouldRetry`. -/
def timeoutPatterns : List String :=
  ["timeout", "timed out", "waiting for selector", "waiting for element",
   "exceeded timeout"]

/-- The network substrings of `shouldRetry`. -/
def networkPatterns : List String :=
  ["net::err", "network error", "connection refused", "econnrefused",
   "socket hang up"]

/-- The element-state (flakiness) substrings of `shouldRetry`. -/
def flakyPatterns : List String :=
  ["element is not visible", "element is not attached", "element is not stable",
   "intercepts pointer events", "not actionable"]

/-- The locator substrings of `isLocatorError`. -/
def locatorPatterns : List String :=
  ["locator", "selector", "element not found", "no element matches",
   "could not find"]

/-- `patterns.some((p) => msg.includes(p))`. -/
def containsAny (msg : String) (patterns : List String) : Bool :=
  patterns.any fun p => strIncludes msg p

/-- `shouldRetry`: no retry once `attempt >= maxRetries`; otherwise match
the lowercased message against the timeout patterns (when `onTimeout`),
the network patterns (always), and the flakiness patterns (when
`onFlakiness`). -/
def shouldRetry (cfg : RetryConfig) (errorMessage : String)
    (attempt maxRetries : Nat) : Bool :=
  if attempt ≥ maxRetries then false
  else
    let msg := lowerStr errorMessage
    if cfg.onTimeout ∧ containsAny msg timeoutPatterns then true
    else if containsAny msg networkPatterns then true
    else if cfg.onFlakiness ∧ containsAny msg flakyPatterns then true
    else false

/-- `isLocatorError`. -/
def isLocatorError (errorMessage : String) : Bool :=
  containsAny (lowerStr errorMessage) locatorPatterns

/-- Worker for `withRetry`: the attempt loop.  `action n` is the outcome of
the `n`-th invocation of the action; the pair's second component counts
action invocations (the backoff sleeps have no observable effect here). -/
def withRetryGo {α : Type} (cfg : RetryConfig) (maxRetries : Nat)
    (action : Nat → Except String α) :
    Nat → Nat → Nat → Option String → Except String α × Nat
  | 0, _, invoked, last => (.error (last.getD "Max retries exceeded"), invoked)
  | fuel + 1, attempt, invoked, _ =>
    match action attempt with
    | .ok v => (.ok v, invoked + 1)
    | .error e =>
      if shouldRetry cfg e attempt maxRetries then
        withRetryGo cfg maxRetries action fuel (attempt + 1) (invoked + 1) (some e)
      else (.error e, invoked + 1)

/-- `withRetry` with the option/config resolution already applied to
`maxRetries` (`options.maxRetries ?? config.retry.maxRetries ?? 2`). -/
def withRetry {α : Type} (cfg : RetryConfig) (maxRetries : Nat)
    (action : Nat → Except String α) : Except String α × Nat :=
  withRetryGo cfg maxRetries action (maxRetries + 1) 0 0 none

end RetryHandler

/-! ## Soundness infrastructure: a successful strategy result was validated -/

/-- A `HealingResult` whose metadata marks a cache hit. -/
def isCachedHitResult (r : HealingResult) : Bool :=
  match r.metadata with
  | some (.cachedHit _) => true
  | _ => false

/-- A result that may legally be returned by the strategy-dispatch loop:
it is success-sound (validated when successful) and is no cache hit. -/
def loopResultOk (page : Page) (r : HealingResult) : Prop :=
  (r.success = true → page.probe r.selector = true) ∧
    isCachedHitResult r = false

/-! ## Concrete instances used by closed theorems and witnesses -/

/-- A fresh engine state: empty cache, empty flakiness tracker. -/
def stEmpty : HealingEngine.EngineState :=
  { cache := fun _ => none, flakiness := [] }

/-- A page on which exactly the selector `#w` resolves. -/
def pageW : Page := { probe := fun s => s == "#w" }

/-- The broken selector of the spec's "CSS simplify" scenario. -/
def selC6 : String :=
  "div#app > main.content > section:nth-child(3) > button#submit"

/-- The page of the "CSS simplify" scenario: it contains
`<button class="submit-btn">`, so `button`, `button.submit-btn` and
`.submit-btn` all resolve (plus the document scaffolding); the broken
selector does not. -/
def pageC6 : Page :=
  { probe := fun s =>
      s == "button" || s == "button.submit-btn" || s == ".submit-btn" ||
        s == "html" || s == "body" }

/-- An LLM response declaring an out-of-range confidence of 5 for a
selector: the JSON layer parses to one suggestion item. -/
def aiRawC1 : AiRawResponse :=
  { jsonLayer := .parsed (some
      [{ selector := some "[data-testid=\x22x\x22]", confidence := some (q 5 1) }]) }

/-- A page where the LLM's suggested selector resolves and the LLM is
available and answers with `aiRawC1`. -/
def pageC1 : Page :=
  { probe := fun s => s == "[data-testid=\x22x\x22]"
    aiAvailable := true
    aiResponse := some aiRawC1 }

/-- A configuration dispatching only the LLM strategy. -/
def cfgC1 : HealingConfig := { strategies := [.aiPoweredAnalysis] }

/-- A stale cache entry: its healed selector no longer resolves. -/
def entryC3 : HealingCacheEntry :=
  { original := "#old", healed := "#dead", confidence := q 95 100
    strategy := .dataTestidRecovery, useCount := 3 }

/-- Engine state holding the stale entry under the key `#old`. -/
def stC3 : HealingEngine.EngineState :=
  { cache := fun k => if k = "#old" then some entryC3 else none
    flakiness := [] }

/-- A page on which no selector resolves at all. -/
def pageC3 : Page := { probe := fun _ => false }

/-- Engine state with a cached entry and one tracked flaky selector. -/
def stC8 : HealingEngine.EngineState :=
  { cache := fun k => if k = "#k" then some entryC3 else none
    flakiness := [("#f", { successes := 0, failures := 1 })] }

/-- A page element whose test ID strictly contains `btn` but is too long
for the Levenshtein gate. -/
def elC5bad : ElementInfo := { tag := "div", testId := some "btn-container-primary" }

/-- A page element whose test ID strictly contains `submit-btn` and passes
the Levenshtein gate (similarity 5/9). -/
def elC5good : ElementInfo := { tag := "div", testId := some "submit-btn-primary" }

/-- Whether an engine construction attempt succeeded (did not throw). -/
def constructionOk : Except String HealingEngine.EngineState → Bool
  | .ok _ => true
  | .error _ => false

lemma probe_of_find_testid {page : Page}
    {l : List DataTestIdRecoveryStrategy.Candidate} {c}
    (h : l.find? (fun c => checkSelectorExists page c.selector) = some c) :
    page.probe c.selector = true := by
  have := List.find?_some h
  simpa [checkSelectorExists] using this

lemma probe_of_find_text {page : Page}
    {l : List TextContentMatchingStrategy.Candidate} {c}
    (h : l.find? (fun c => checkSelectorExists page c.selector) = some c) :
    page.probe c.selector = true := by
  have := List.find?_some h
  simpa [checkSelectorExists] using this

lemma probe_of_find_css {page : Page}
    {l : List CssHierarchyAnalysisStrategy.Alternative} {c}
    (h : l.find? (fun c => checkSelectorExists page c.selector) = some c) :
    page.probe c.selector = true := by
  have := List.find?_some h
  simpa [checkSelectorExists] using this

lemma probe_of_find_ai {page : Page}
    {l : List AiPoweredAnalysisStrategy.Suggestion} {c}
    (h : l.find? (fun s => checkSelectorExists page s.selector) = some c) :
    page.probe c.selector = true := by
  have := List.find?_some h
  simpa [checkSelectorExists] using this

lemma testid_heal_success_probe (page : Page) (sel : String) (opts : HealOptions) :
    (DataTestIdRecoveryStrategy.heal page sel opts).success = true →
    page.probe (DataTestIdRecoveryStrategy.heal page sel opts).selector = true := by
  unfold DataTestIdRecoveryStrategy.heal
  dsimp only
  repeat' split
  all_goals
    first
    | (simp; done)
    | (intro _; exact probe_of_find_testid (by assumption))

lemma text_heal_success_probe (page : Page) (sel : String) (opts : HealOptions) :
    (TextContentMatchingStrategy.heal page sel opts).success = true →
    page.probe (TextContentMatchingStrategy.heal page sel opts).selector = true := by
  unfold TextContentMatchingStrategy.heal
  dsimp only
  repeat' split
  all_goals
    first
    | (simp; done)
    | (intro _; exact probe_of_find_text (by assumption))

lemma css_heal_success_probe (page : Page) (sel : String) :
    (CssHierarchyAnalysisStrategy.heal page sel).success = true →
    page.probe (CssHierarchyAnalysisStrategy.heal page sel).selector = true := by
  unfold CssHierarchyAnalysisStrategy.heal
  dsimp only
  repeat' split
  all_goals
    first
    | (simp; done)
    | (intro _; exact probe_of_find_css (by assumption))

lemma ai_heal_success_probe (page : Page) (sel : String) :
    (AiPoweredAnalysisStrategy.heal page sel).success = true →
    page.probe (AiPoweredAnalysisStrategy.heal page sel).selector = true := by
  unfold AiPoweredAnalysisStrategy.heal
  dsimp only
  repeat' split
  all_goals
    first
    | (simp; done)
    | (intro _; exact probe_of_find_ai (by assumption))

lemma runStrategy_success_probe (tag : StrategyTag) (page : Page)
    (sel : String) (opts : HealOptions) :
    (HealingEngine.runStrategy tag page sel opts).success = true →
    page.probe (HealingEngine.runStrategy tag page sel opts).selector = true := by
  cases tag with
  | dataTestidRecovery => exact testid_heal_success_probe page sel opts
  | textContentMatching => exact text_heal_success_probe page sel opts
  | cssHierarchyAnalysis => exact css_heal_success_probe page sel
  | aiPoweredAnalysis => exact ai_heal_success_probe page sel

lemma testid_heal_not_cachedHit (page : Page) (sel : String) (opts : HealOptions) :
    isCachedHitResult (DataTestIdRecoveryStrategy.heal page sel opts) = false := by
  unfold DataTestIdRecoveryStrategy.heal
  dsimp only
  repeat' split
  all_goals rfl

lemma text_heal_not_cachedHit (page : Page) (sel : String) (opts : HealOptions) :
    isCachedHitResult (TextContentMatchingStrategy.heal page sel opts) = false := by
  unfold TextContentMatchingStrategy.heal
  dsimp only
  repeat' split
  all_goals rfl

lemma css_heal_not_cachedHit (page : Page) (sel : String) :
    isCachedHitResult (CssHierarchyAnalysisStrategy.heal page sel) = false := by
  unfold CssHierarchyAnalysisStrategy.heal
  dsimp only
  repeat' split
  all_goals rfl

lemma ai_heal_not_cachedHit (page : Page) (sel : String) :
    isCachedHitResult (AiPoweredAnalysisStrategy.heal page sel) = false := by
  unfold AiPoweredAnalysisStrategy.heal
  dsimp only
  repeat' split
  all_goals rfl

lemma runStrategy_not_cachedHit (tag : StrategyTag) (page : Page)
    (sel : String) (opts : HealOptions) :
    isCachedHitResult (HealingEngine.runStrategy tag page sel opts) = false := by
  cases tag with
  | dataTestidRecovery => exact testid_heal_not_cachedHit page sel opts
  | textContentMatching => exact text_heal_not_cachedHit page sel opts
  | cssHierarchyAnalysis => exact css_heal_not_cachedHit page sel
  | aiPoweredAnalysis => exact ai_heal_not_cachedHit page sel

lemma runStrategy_loopResultOk (tag : StrategyTag) (page : Page)
    (sel : String) (opts : HealOptions) :
    loopResultOk page (HealingEngine.runStrategy tag page sel opts) :=
  ⟨runStrategy_success_probe tag page sel opts,
   runStrategy_not_cachedHit tag page sel opts⟩

lemma runStrategyList_ok (page : Page) (sel : String) (opts : HealOptions) :
    ∀ (tags : List StrategyTag) (last : Option HealingResult)
      (inv : List StrategyTag),
      (∀ r, last = some r → r.success = false ∧ loopResultOk page r) →
      (∀ res tag inv',
        HealingEngine.runStrategyList page sel opts tags last inv =
          .found res tag inv' →
        res.success = true ∧ loopResultOk page res) ∧
      (∀ last' inv',
        HealingEngine.runStrategyList page sel opts tags last inv =
          .exhausted last' inv' →
        ∀ r, last' = some r → r.success = false ∧ loopResultOk page r) := by
  intro tags
  induction tags with
  | nil =>
    intro last inv hlast
    constructor
    · intro res tag inv' h
      cases h
    · intro last' inv' h r hr
      cases h
      exact hlast r hr
  | cons t ts ih =>
    intro last inv hlast
    unfold HealingEngine.runStrategyList
    by_cases hs : (HealingEngine.runStrategy t page sel opts).success = true
    · rw [if_pos hs]
      constructor
      · intro res tag inv' h
        cases h
        exact ⟨hs, runStrategy_loopResultOk t page sel opts⟩
      · intro last' inv' h
        cases h
    · rw [if_neg hs]
      exact ih (some (HealingEngine.runStrategy t page sel opts)) (inv ++ [t])
        (by
          intro r hr
          cases hr
          exact ⟨Bool.not_eq_true _ ▸ Bool.of_not_eq_true hs,
            runStrategy_loopResultOk t page sel opts⟩)

lemma healLoop_ok (cfg : HealingConfig) (page : Page) (sel : String)
    (opts : HealOptions) :
    ∀ (fuel : Nat) (last : Option HealingResult) (inv : List StrategyTag),
      (∀ r, last = some r → r.success = false ∧ loopResultOk page r) →
      (∀ res tag x y,
        HealingEngine.healLoop cfg page sel opts fuel last inv =
          (some (res, tag), x, y) →
        res.success = true ∧ loopResultOk page res) ∧
      (∀ last' y,
        HealingEngine.healLoop cfg page sel opts fuel last inv =
          (none, last', y) →
        ∀ r, last' = some r → r.success = false ∧ loopResultOk page r) := by
  intro fuel
  induction fuel with
  | zero =>
    intro last inv hlast
    constructor
    · intro res tag x y h
      cases h
    · intro last' y h r hr
      unfold HealingEngine.healLoop at h
      cases h
      exact hlast r hr
  | succ n ih =>
    intro last inv hlast
    unfold HealingEngine.healLoop
    cases hstep : HealingEngine.runStrategyList page sel opts cfg.strategies
        last inv with
    | found res tag inv' =>
      have hfound := (runStrategyList_ok page sel opts cfg.strategies last inv
        hlast).1 res tag inv' hstep
      constructor
      · intro res' tag' x y h
        cases h
        exact hfound
      · intro last' y h
        cases h
    | exhausted last' inv' =>
      have hlast' := (runStrategyList_ok page sel opts cfg.strategies last inv
        hlast).2 last' inv' hstep
      exact ih last' inv' hlast'

lemma healAfterCache_result_ok (cfg : HealingConfig) (page : Page)
    (sel : String) (opts : HealOptions)
    (cache : String → Option HealingCacheEntry)
    (flak : List (String × FlakStats)) :
    ((HealingEngine.healAfterCache cfg page sel opts cache flak).result.success
        = true →
      page.probe
        (HealingEngine.healAfterCache cfg page sel opts cache flak).result.selector
        = true) ∧
    isCachedHitResult
      (HealingEngine.healAfterCache cfg page sel opts cache flak).result = false := by
  unfold HealingEngine.healAfterCache
  by_cases hp : checkSelectorExists page sel = true
  · rw [if_pos hp]
    refine ⟨fun _ => ?_, rfl⟩
    simpa [checkSelectorExists] using hp
  · rw [if_neg hp]
    cases hloop : HealingEngine.healLoop cfg page sel opts cfg.maxAttempts
        none [] with
    | mk fst rest =>
      cases rest with
      | mk lst inv =>
        cases fst with
        | some p =>
          cases p with
          | mk res tag =>
            have hok := (healLoop_ok cfg page sel opts cfg.maxAttempts none []
              (by intro r hr; cases hr)).1 res tag lst inv hloop
            simpa using ⟨hok.2.1, hok.2.2⟩
        | none =>
          have hlast := (healLoop_ok cfg page sel opts cfg.maxAttempts none []
            (by intro r hr; cases hr)).2 lst inv hloop
          cases lst with
          | some r =>
            have := hlast r rfl
            constructor
            · intro hs
              simp only [Option.getD] at hs
              rw [this.1] at hs
              cases hs
            · simpa using this.2.2
          | none =>
            constructor
            · intro hs
              simp [HealingEngine.allFailedResult] at hs
            · rfl

lemma healAfterCache_cache_self (cfg : HealingConfig) (page : Page)
    (sel : String) (opts : HealOptions)
    (cache : String → Option HealingCacheEntry)
    (flak : List (String × FlakStats)) :
    ∀ e', (HealingEngine.healAfterCache cfg page sel opts cache flak).cache sel
      = some e' → cache sel = some e' ∨ page.probe e'.healed = true := by
  unfold HealingEngine.healAfterCache
  by_cases hp : checkSelectorExists page sel = true
  · rw [if_pos hp]
    intro e' h
    exact .inl h
  · rw [if_neg hp]
    cases hloop : HealingEngine.healLoop cfg page sel opts cfg.maxAttempts
        none [] with
    | mk fst rest =>
      cases rest with
      | mk lst inv =>
        cases fst with
        | some p =>
          cases p with
          | mk res tag =>
            have hok := (healLoop_ok cfg page sel opts cfg.maxAttempts none []
              (by intro r hr; cases hr)).1 res tag lst inv hloop
            dsimp only
            by_cases hch : cfg.cacheHealing = true
            · rw [if_pos hch]
              intro e' h
              have h' : some ({ original := sel,
                                healed := res.selector,
                                confidence := res.confidence,
                                strategy := tag,
                                useCount := 1 } : HealingCacheEntry)
                  = some e' := by
                simpa [HealingEngine.cacheSet] using h
              cases h'
              exact .inr (hok.2.1 hok.1)
            · rw [if_neg hch]
              intro e' h
              exact .inl h
        | none =>
          intro e' h
          exact .inl h

lemma heal_not_cachedHit_of_no_entry (cfg : HealingConfig) (page : Page)
    (sel : String) (opts : HealOptions) (st : HealingEngine.EngineState)
    (hnc : st.cache sel = none) :
    isCachedHitResult (HealingEngine.heal cfg page sel opts st).result = false := by
  unfold HealingEngine.heal
  by_cases he : (!cfg.enabled) = true
  · rw [if_pos he]
    rfl
  · rw [if_neg he]
    by_cases hch : cfg.cacheHealing = true
    · rw [if_pos hch, hnc]
      exact (healAfterCache_result_ok cfg page sel opts _ _).2
    · rw [if_neg hch]
      exact (healAfterCache_result_ok cfg page sel opts _ _).2

lemma validateUrl_some (u : UrlParts) :
    validateUrl (some u) =
      ((["localhost", "127.0.0.1"].any fun host =>
          lowerStr u.hostname = host ||
            endsWithStr (lowerStr u.hostname) ("." ++ host)) &&
        (u.port == "" || ["80", "443", "8080", "11434"].contains u.port)) := by
  unfold validateUrl
  dsimp only
  cases hA : (["localhost", "127.0.0.1"].any fun host =>
      lowerStr u.hostname = host ||
        endsWithStr (lowerStr u.hostname) ("." ++ host)) with
  | false => simp [hA]
  | true =>
    by_cases hp : u.port = ""
    · simp [hA, hp]
    · cases hc : ["80", "443", "8080", "11434"].contains u.port with
      | false => simp [hA, hp, hc]
      | true => simp [hA, hp, hc]

lemma shouldRetry_flaky_only (cfg : RetryConfig) (msg : String) (a maxR : Nat)
    (hf : RetryHandler.containsAny (lowerStr msg) RetryHandler.flakyPatterns
      = true)
    (ht : RetryHandler.containsAny (lowerStr msg) RetryHandler.timeoutPatterns
      = false)
    (hn : RetryHandler.containsAny (lowerStr msg) RetryHandler.networkPatterns
      = false) :
    RetryHandler.shouldRetry cfg msg a maxR =
      if a ≥ maxR then false else cfg.onFlakiness := by
  unfold RetryHandler.shouldRetry
  by_cases hge : a ≥ maxR
  · rw [if_pos hge, if_pos hge]
  · rw [if_neg hge, if_neg hge]
    simp [ht, hn, hf]

lemma withRetryGo_flaky_on (cfg : RetryConfig) (msg : String) (maxR : Nat)
    (hf : RetryHandler.containsAny (lowerStr msg) RetryHandler.flakyPatterns
      = true)
    (ht : RetryHandler.containsAny (lowerStr msg) RetryHandler.timeoutPatterns
      = false)
    (hn : RetryHandler.containsAny (lowerStr msg) RetryHandler.networkPatterns
      = false)
    (hon : cfg.onFlakiness = true) :
    ∀ (f a inv : Nat) (last : Option String), a + f = maxR + 1 → 0 < f →
      RetryHandler.withRetryGo (α := Unit) cfg maxR (fun _ => .error msg)
        f a inv last = (.error msg, inv + f) := by
  intro f
  induction f with
  | zero =>
    intro a inv last _ h0
    cases h0
  | succ k ih =>
    intro a inv last hsum _
    unfold RetryHandler.withRetryGo
    dsimp only
    rw [shouldRetry_flaky_only cfg msg a maxR hf ht hn]
    by_cases hge : a ≥ maxR
    · rw [if_pos hge]
      have hk : k = 0 := by omega
      subst hk
      simp
    · rw [if_neg hge, hon]
      simp only [if_pos rfl]
      have hlt : a < maxR := Nat.lt_of_not_le hge
      have hsum' : (a + 1) + k = maxR + 1 := by omega
      have hk : 0 < k := by omega
      have hrec := ih (a + 1) (inv + 1) (some msg) hsum' hk
      rw [hrec]
      have harith : inv + 1 + k = inv + (k + 1) := by omega
      rw [harith]
      simp

lemma withRetry_flaky_count (cfg : RetryConfig) (msg : String) (maxR : Nat)
    (hf : RetryHandler.containsAny (lowerStr msg) RetryHandler.flakyPatterns
      = true)
    (ht : RetryHandler.containsAny (lowerStr msg) RetryHandler.timeoutPatterns
      = false)
    (hn : RetryHandler.containsAny (lowerStr msg) RetryHandler.networkPatterns
      = false) :
    RetryHandler.withRetry (α := Unit) cfg maxR (fun _ => .error msg) =
      (.error msg, if cfg.onFlakiness then maxR + 1 else 1) := by
  by_cases hon : cfg.onFlakiness = true
  · have h := withRetryGo_flaky_on cfg msg maxR hf ht hn hon (maxR + 1) 0 0 none
      (by omega) (by omega)
    unfold RetryHandler.withRetry
    rw [h, hon]
    simp
  · have hon' : cfg.onFlakiness = false := by
      cases h : cfg.onFlakiness
      · rfl
      · exact absurd h hon
    unfold RetryHandler.withRetry RetryHandler.withRetryGo
    dsimp only
    rw [shouldRetry_flaky_only cfg msg 0 maxR hf ht hn, hon']
    by_cases hge : 0 ≥ maxR
    · rw [if_pos hge]
      simp [hon']
    · rw [if_neg hge]
      simp [hon']

lemma heal_noHealing_step (cfg : HealingConfig) (page : Page) (sel : String)
    (opts : HealOptions) (st : HealingEngine.EngineState)
    (hen : cfg.enabled = true) (hnc : st.cache sel = none)
    (hp : page.probe sel = true) :
    HealingEngine.heal cfg page sel opts st =
      { result := HealingEngine.noHealingNeededResult sel
        cache := st.cache
        flakiness := HealingEngine.trackSuccess st.flakiness sel
        invoked := [] } := by
  unfold HealingEngine.heal HealingEngine.healAfterCache
  by_cases hch : cfg.cacheHealing = true
  · simp [hen, hch, hnc, checkSelectorExists, hp]
  · simp [hen, hch, checkSelectorExists, hp]

lemma heal_stale_entry_step (cfg : HealingConfig) (page : Page) (sel : String)
    (opts : HealOptions) (st : HealingEngine.EngineState)
    (entry : HealingCacheEntry)
    (hen : cfg.enabled = true) (hch : cfg.cacheHealing = true)
    (hcc : st.cache sel = some entry) (hpe : page.probe entry.healed = false) :
    HealingEngine.heal cfg page sel opts st =
      HealingEngine.healAfterCache cfg page sel opts
        (HealingEngine.cacheErase
          (HealingEngine.cacheSet st.cache sel
            { entry with useCount := entry.useCount + 1 }) sel)
        st.flakiness := by
  unfold HealingEngine.heal
  simp [hen, hch, hcc, checkSelectorExists, hpe]

/-- Every `heal` result is success-sound: `success = true` implies the
returned selector passed a driver probe during the call. -/
lemma heal_result_sound (cfg : HealingConfig) (page : Page) (sel : String)
    (opts : HealOptions) (st : HealingEngine.EngineState) :
    (HealingEngine.heal cfg page sel opts st).result.success = true →
    page.probe (HealingEngine.heal cfg page sel opts st).result.selector
      = true := by
  unfold HealingEngine.heal
  by_cases he : (!cfg.enabled) = true
  · rw [if_pos he]
    intro hs
    simp [HealingEngine.disabledResult] at hs
  · rw [if_neg he]
    by_cases hch : cfg.cacheHealing = true
    · rw [if_pos hch]
      cases hcc : st.cache sel with
      | some entry =>
        dsimp only
        by_cases hpe : checkSelectorExists page entry.healed = true
        · rw [if_pos hpe]
          intro _
          simpa [HealingEngine.cachedResult, checkSelectorExists] using hpe
        · rw [if_neg hpe]
          exact (healAfterCache_result_ok cfg page sel opts _ _).1
      | none => exact (healAfterCache_result_ok cfg page sel opts _ _).1
    · rw [if_neg hch]
      exact (healAfterCache_result_ok cfg page sel opts _ _).1

/-! ## Claims -/

/-- C1: the claim states that every confidence — including one coming from
an LLM suggestion — lies in [0, 1].  The code contradicts it (and its own
`Confidence score (0-1)` documentation of `HealingResult`):
`parseAiSuggestions` takes `item.confidence || 0.7` without clamping, so an
LLM response declaring confidence 5 produces a candidate and, once the
selector validates, a `HealingResult` with confidence 5 — outside [0, 1]. -/
theorem claim_C1_llm_confidence_unclamped :
    (HealingEngine.heal cfgC1 pageC1 "#old" {} stEmpty).result.success = true ∧
    (HealingEngine.heal cfgC1 pageC1 "#old" {} stEmpty).result.confidence
      = q 5 1 ∧
    qLt 1 (HealingEngine.heal cfgC1 pageC1 "#old" {} stEmpty).result.confidence
      = true ∧
    (AiPoweredAnalysisStrategy.parseAiSuggestions aiRawC1).map (·.confidence)
      = [q 5 1] := by
  refine ⟨by decide, by decide, by decide, by decide⟩

/-- C2: whenever `heal` returns `success = true`, the returned selector was
validated against the live page during the call — a driver probe reported
presence for it on the cache-hit path, the already-resolving path, and
every strategy-success path (each strategy returns success only from its
candidate-validation loop). -/
theorem claim_C2_success_implies_validated (cfg : HealingConfig) (page : Page)
    (sel : String) (opts : HealOptions) (st : HealingEngine.EngineState) :
    (HealingEngine.heal cfg page sel opts st).result.success = true →
    page.probe (HealingEngine.heal cfg page sel opts st).result.selector
      = true :=
  heal_result_sound cfg page sel opts st

/-- Witness for C2 at a concrete input (the already-resolving path). -/
theorem claim_C2_witness :
    (HealingEngine.heal {} pageW "#w" {} stEmpty).result.success = true ∧
    pageW.probe (HealingEngine.heal {} pageW "#w" {} stEmpty).result.selector
      = true :=
  ⟨by decide, claim_C2_success_implies_validated {} pageW "#w" {} stEmpty
    (by decide)⟩

/-- C3: when a `heal` call finds a cache entry for the broken selector whose
stored healed selector fails the driver probe, that entry is gone from the
cache when the call returns: any entry stored under the key afterwards has
a healed selector that passed a probe, so in particular it is not the stale
entry. -/
theorem claim_C3_stale_entry_evicted (cfg : HealingConfig) (page : Page)
    (sel : String) (opts : HealOptions) (st : HealingEngine.EngineState)
    (entry : HealingCacheEntry)
    (hen : cfg.enabled = true) (hch : cfg.cacheHealing = true)
    (hcc : st.cache sel = some entry)
    (hpe : page.probe entry.healed = false) :
    (∀ e', (HealingEngine.heal cfg page sel opts st).cache sel = some e' →
      page.probe e'.healed = true) ∧
    ¬ (HealingEngine.heal cfg page sel opts st).cache sel = some entry := by
  have hmain : ∀ e',
      (HealingEngine.heal cfg page sel opts st).cache sel = some e' →
      page.probe e'.healed = true := by
    intro e' h
    rw [heal_stale_entry_step cfg page sel opts st entry hen hch hcc hpe] at h
    rcases healAfterCache_cache_self cfg page sel opts _ _ e' h with hl | hr
    · simp [HealingEngine.cacheErase] at hl
    · exact hr
  refine ⟨hmain, fun hcontra => ?_⟩
  have := hmain entry hcontra
  rw [hpe] at this
  cases this

/-- Witness for C3 at a concrete input: a stale entry under `#old` on a page
where nothing resolves. -/
theorem claim_C3_witness :
    (({} : HealingConfig).enabled = true ∧
      ({} : HealingConfig).cacheHealing = true ∧
      stC3.cache "#old" = some entryC3 ∧
      pageC3.probe entryC3.healed = false) ∧
    ((∀ e', (HealingEngine.heal {} pageC3 "#old" {} stC3).cache "#old"
        = some e' → pageC3.probe e'.healed = true) ∧
      ¬ (HealingEngine.heal {} pageC3 "#old" {} stC3).cache "#old"
        = some entryC3) :=
  ⟨⟨by decide, by decide, by decide, by decide⟩,
   claim_C3_stale_entry_evicted {} pageC3 "#old" {} stC3 entryC3
     (by decide) (by decide) (by decide) (by decide)⟩

/-- C4: healing an already-resolving selector with no cache entry returns
success with the original selector, confidence 1.0 and
`metadata.noHealingNeeded`, invokes zero strategies, and writes nothing to
the cache. -/
theorem claim_C4_already_resolving (cfg : HealingConfig) (page : Page)
    (sel : String) (opts : HealOptions) (st : HealingEngine.EngineState)
    (hen : cfg.enabled = true) (hnc : st.cache sel = none)
    (hp : page.probe sel = true) :
    (HealingEngine.heal cfg page sel opts st).result.success = true ∧
    (HealingEngine.heal cfg page sel opts st).result.selector = sel ∧
    (HealingEngine.heal cfg page sel opts st).result.confidence = 1 ∧
    (HealingEngine.heal cfg page sel opts st).result.metadata
      = some .noHealingNeeded ∧
    (HealingEngine.heal cfg page sel opts st).invoked = [] ∧
    (HealingEngine.heal cfg page sel opts st).cache = st.cache := by
  rw [heal_noHealing_step cfg page sel opts st hen hnc hp]
  exact ⟨rfl, rfl, rfl, rfl, rfl, rfl⟩

/-- Witness for C4 at a concrete input. -/
theorem claim_C4_witness :
    (({} : HealingConfig).enabled = true ∧ stEmpty.cache "#w" = none ∧
      pageW.probe "#w" = true) ∧
    ((HealingEngine.heal {} pageW "#w" {} stEmpty).result.success = true ∧
      (HealingEngine.heal {} pageW "#w" {} stEmpty).result.selector = "#w" ∧
      (HealingEngine.heal {} pageW "#w" {} stEmpty).result.confidence = 1 ∧
      (HealingEngine.heal {} pageW "#w" {} stEmpty).result.metadata
        = some .noHealingNeeded ∧
      (HealingEngine.heal {} pageW "#w" {} stEmpty).invoked = [] ∧
      (HealingEngine.heal {} pageW "#w" {} stEmpty).cache = stEmpty.cache) :=
  ⟨⟨by decide, by decide, by decide⟩,
   claim_C4_already_resolving {} pageW "#w" {} stEmpty
     (by decide) (by decide) (by decide)⟩

/-- C5, counterexample to the claim as stated: `btn` is a case-insensitive
strict substring of the page test-ID `btn-container-primary`, the pair is
neither equal nor normalization-equal, yet `findCandidates` emits NO
candidate at all: the Levenshtein gate `similarity > 0.5` (here 1/7) runs
before the `contains` branch and discards the pair. -/
theorem claim_C5_counterexample :
    strIncludes (lowerStr "btn-container-primary") (lowerStr "btn") = true ∧
    (lowerStr "btn" == lowerStr "btn-container-primary") = false ∧
    (DataTestIdRecoveryStrategy.normalizeName "btn" ==
      DataTestIdRecoveryStrategy.normalizeName "btn-container-primary")
      = false ∧
    DataTestIdRecoveryStrategy.calculateSimilarity "btn" "btn-container-primary"
      = q 1 7 ∧
    DataTestIdRecoveryStrategy.findCandidates "btn" [elC5bad] none = [] := by
  refine ⟨by decide, by decide, by decide, by decide, by decide⟩

/-- C5, amended: the 0.80/`contains` candidate (one per recognized
attribute, with the +0.10 expectedType bonus clamped to 1.0) is emitted for
a substring pair only when the pair additionally passes the Levenshtein
gate `similarity > 0.5`; the gate applies to every pair, not only to the
`partial` fallback. -/
theorem claim_C5_contains_needs_similarity_gate (orig tid : String)
    (et : Option String) (e : ElementInfo)
    (htid : e.testId = some tid) (hne : tid ≠ "")
    (hneq : lowerStr orig ≠ lowerStr tid)
    (hnorm : DataTestIdRecoveryStrategy.normalizeName orig ≠
      DataTestIdRecoveryStrategy.normalizeName tid)
    (hsub : strIncludes (lowerStr tid) (lowerStr orig) = true)
    (hsim : qLt (q 1 2)
      (DataTestIdRecoveryStrategy.calculateSimilarity orig tid) = true) :
    (DataTestIdRecoveryStrategy.findCandidates orig [e] et).length = 5 ∧
    ∀ c ∈ DataTestIdRecoveryStrategy.findCandidates orig [e] et,
      c.testId = tid ∧ c.matchType = "contains" ∧
      c.confidence = (match et with
        | some t => if e.tag = lowerStr t then qMin (qAdd (q 8 10) (q 1 10)) 1
            else q 8 10
        | none => q 8 10) := by
  have hcand : DataTestIdRecoveryStrategy.candidatesFor orig et e =
      DataTestIdRecoveryStrategy.TEST_ID_ATTRIBUTES.map (fun attr =>
        { selector := "[" ++ attr ++ "=\"" ++ tid ++ "\"]"
          testId := tid
          confidence := (match et with
            | some t => if e.tag = lowerStr t then
                qMin (qAdd (q 8 10) (q 1 10)) 1 else q 8 10
            | none => q 8 10)
          matchType := "contains" }) := by
    unfold DataTestIdRecoveryStrategy.candidatesFor
    rw [htid]
    dsimp only
    rw [if_neg hne, if_pos hsim, if_neg hneq, if_neg hnorm, if_pos hsub]
  have hflat : DataTestIdRecoveryStrategy.findCandidates orig [e] et =
      sortStable (fun a b => qLt b.confidence a.confidence)
        (DataTestIdRecoveryStrategy.candidatesFor orig et e) := by
    unfold DataTestIdRecoveryStrategy.findCandidates
    simp
  rw [hflat, hcand]
  constructor
  · rw [length_sortStable]
    simp [DataTestIdRecoveryStrategy.TEST_ID_ATTRIBUTES]
  · intro c hc
    rw [mem_sortStable] at hc
    simp only [List.mem_map] at hc
    obtain ⟨attr, _, rfl⟩ := hc
    exact ⟨rfl, rfl, rfl⟩

/-- Witness for the amended C5: `submit-btn` inside `submit-btn-primary`
passes the gate (similarity 5/9) and yields the five 0.80 `contains`
candidates. -/
theorem claim_C5_witness :
    (strIncludes (lowerStr "submit-btn-primary") (lowerStr "submit-btn")
        = true ∧
      qLt (q 1 2) (DataTestIdRecoveryStrategy.calculateSimilarity
        "submit-btn" "submit-btn-primary") = true) ∧
    ((DataTestIdRecoveryStrategy.findCandidates "submit-btn" [elC5good]
        none).length = 5 ∧
      ∀ c ∈ DataTestIdRecoveryStrategy.findCandidates "submit-btn" [elC5good]
        none,
        c.testId = "submit-btn-primary" ∧ c.matchType = "contains" ∧
        c.confidence = (match (none : Option String) with
          | some t => if elC5good.tag = lowerStr t then
              qMin (qAdd (q 8 10) (q 1 10)) 1 else q 8 10
          | none => q 8 10)) :=
  ⟨⟨by decide, by decide⟩,
   claim_C5_contains_needs_similarity_gate "submit-btn" "submit-btn-primary"
     none elC5good rfl (by decide) (by decide) (by decide) (by decide)
     (by decide)⟩

/-- C6, counterexample to the claim as stated: on the "CSS simplify"
scenario page (where `button.submit-btn` and `.submit-btn` do resolve),
`heal` succeeds but returns neither of them — the CSS Hierarchy strategy is
purely syntactic over the broken selector, which does not mention the class
`submit-btn`, so no transform can produce it. -/
theorem claim_C6_counterexample :
    (HealingEngine.heal {} pageC6 selC6 {} stEmpty).result.success = true ∧
    pageC6.probe "button.submit-btn" = true ∧
    pageC6.probe ".submit-btn" = true ∧
    (((HealingEngine.heal {} pageC6 selC6 {} stEmpty).result.selector
        == "button.submit-btn") ||
      ((HealingEngine.heal {} pageC6 selC6 {} stEmpty).result.selector
        == ".submit-btn")) = false := by
  refine ⟨by decide, by decide, by decide, by decide⟩

/-- C6, amended: on that scenario `heal` succeeds via the CSS Hierarchy
strategy, but through the last-tag transform: it returns the selector
`button` with confidence 0.5 and transformation type `last-element-only`
(the class-only and tag+class transforms produce `.content`,
`button.content` and `div.content` from the broken selector's only class
`content`, none of which resolve). -/
theorem claim_C6_last_tag_transform :
    (HealingEngine.heal {} pageC6 selC6 {} stEmpty).result.success = true ∧
    (HealingEngine.heal {} pageC6 selC6 {} stEmpty).result.selector
      = "button" ∧
    (HealingEngine.heal {} pageC6 selC6 {} stEmpty).result.confidence
      = q 1 2 ∧
    (HealingEngine.heal {} pageC6 selC6 {} stEmpty).result.strategy
      = .cssHierarchyAnalysis ∧
    (HealingEngine.heal {} pageC6 selC6 {} stEmpty).result.metadata
      = some (.cssInfo selC6 "last-element-only") := by
  refine ⟨by decide, by decide, by decide, by decide, by decide⟩

/-- C7, counterexample to the claim as stated: the message
`Target not visible` contains the claimed substring `not visible`,
`retry.onFlakiness` holds and retries remain, yet `withRetry` does not
retry (one single invocation): the code's pattern is
`element is not visible`, not `not visible`. -/
theorem claim_C7_counterexample :
    strIncludes (lowerStr "Target not visible") "not visible" = true ∧
    ({} : RetryConfig).onFlakiness = true ∧
    (RetryHandler.withRetry (α := Unit) {} 2
      (fun _ => .error "Target not visible")).2 = 1 := by
  refine ⟨by decide, by decide, by decide⟩

/-- C7, amended: for an error whose lowercased message contains one of the
code's element-state substrings (`element is not visible`,
`element is not attached`, `element is not stable`,
`intercepts pointer events`, `not actionable`) and none of the timeout or
network substrings, `withRetry` retries it iff `retry.onFlakiness` holds
and attempts remain: a constantly failing action is invoked
`maxRetries + 1` times when `retry.onFlakiness` is set and once otherwise,
and the error is rethrown. -/
theorem claim_C7_flaky_classification (cfg : RetryConfig) (maxR : Nat)
    (msg : String)
    (hf : RetryHandler.containsAny (lowerStr msg) RetryHandler.flakyPatterns
      = true)
    (ht : RetryHandler.containsAny (lowerStr msg) RetryHandler.timeoutPatterns
      = false)
    (hn : RetryHandler.containsAny (lowerStr msg) RetryHandler.networkPatterns
      = false) :
    RetryHandler.withRetry (α := Unit) cfg maxR (fun _ => .error msg) =
      (.error msg, if cfg.onFlakiness then maxR + 1 else 1) :=
  withRetry_flaky_count cfg msg maxR hf ht hn

/-- Witness for the amended C7: `element is not visible` with the default
configuration and `maxRetries = 2` gives three invocations. -/
theorem claim_C7_witness :
    (RetryHandler.containsAny (lowerStr "element is not visible")
        RetryHandler.flakyPatterns = true ∧
      RetryHandler.containsAny (lowerStr "element is not visible")
        RetryHandler.timeoutPatterns = false ∧
      RetryHandler.containsAny (lowerStr "element is not visible")
        RetryHandler.networkPatterns = false) ∧
    RetryHandler.withRetry (α := Unit) {} 2
        (fun _ => .error "element is not visible") =
      (.error "element is not visible",
        if ({} : RetryConfig).onFlakiness then 2 + 1 else 1) :=
  ⟨⟨by decide, by decide, by decide⟩,
   claim_C7_flaky_classification {} 2 "element is not visible"
     (by decide) (by decide) (by decide)⟩

/-- C8, counterexample to the claim as stated: after `clearCache` the
flakiness tracker still holds its entries — `getFlakinessStats` returns the
same nonempty ranked list as before, not the empty list. -/
theorem claim_C8_counterexample :
    HealingEngine.getFlakinessStats (HealingEngine.clearCache stC8).flakiness =
      [{ selector := "#f", successes := 0, failures := 1
         flakinessScore := 1 }] := by
  decide

/-- C8, amended: `clearCache` resets the healing cache only: afterwards the
cache holds no entry for any key (so no subsequent `heal` can report
`metadata.cached = true` until a new success is cached), while the
flakiness tracker — and hence `getFlakinessStats` — is unchanged. -/
theorem claim_C8_clearCache_cache_only (st : HealingEngine.EngineState)
    (cfg : HealingConfig) (page : Page) (sel : String) (opts : HealOptions) :
    (HealingEngine.clearCache st).cache sel = none ∧
    (HealingEngine.clearCache st).flakiness = st.flakiness ∧
    HealingEngine.getFlakinessStats (HealingEngine.clearCache st).flakiness =
      HealingEngine.getFlakinessStats st.flakiness ∧
    isCachedHitResult
      (HealingEngine.heal cfg page sel opts
        (HealingEngine.clearCache st)).result = false :=
  ⟨rfl, rfl, rfl,
   heal_not_cachedHit_of_no_entry cfg page sel opts
     (HealingEngine.clearCache st) rfl⟩

/-- C9, counterexample to the claim as stated: `foo.localhost` is not in
the hostname allow-list, yet construction succeeds — `validateUrl` also
accepts any subdomain of an allow-listed host (`hostname.endsWith("." + host)`). -/
theorem claim_C9_counterexample :
    constructionOk (HealingEngine.mkEngine {}
      (some { hostname := "foo.localhost", port := "" })) = true ∧
    (["localhost", "127.0.0.1"].contains "foo.localhost") = false := by
  refine ⟨by decide, by decide⟩

/-- C9, amended: engine construction succeeds for a parsed endpoint URL iff
the lowercased hostname equals an allow-listed host (`localhost`,
`127.0.0.1`) or is a subdomain of one (ends with `"." + host`), and the
explicit port, when present, is one of 80, 443, 8080, 11434; it fails when
the URL does not parse. -/
theorem claim_C9_url_validation (cfg : HealingConfig) (u : UrlParts) :
    constructionOk (HealingEngine.mkEngine cfg (some u)) =
      ((["localhost", "127.0.0.1"].any fun host =>
          lowerStr u.hostname = host ||
            endsWithStr (lowerStr u.hostname) ("." ++ host)) &&
        (u.port == "" || ["80", "443", "8080", "11434"].contains u.port)) ∧
    constructionOk (HealingEngine.mkEngine cfg none) = false := by
  constructor
  · unfold HealingEngine.mkEngine HealingEngine.initializeStrategies
      AiPoweredAnalysisStrategy.construct
    rw [validateUrl_some]
    cases hB : ((["localhost", "127.0.0.1"].any fun host =>
        lowerStr u.hostname = host ||
          endsWithStr (lowerStr u.hostname) ("." ++ host)) &&
        (u.port == "" || ["80", "443", "8080", "11434"].contains u.port)) with
    | false => simp [constructionOk]
    | true => simp [constructionOk]
  · rfl

/-- C10: `healthCheck` never reports `offline`: the three non-LLM
strategies are reported available unconditionally, so for every outcome of
the LLM availability probe the status is `healthy` when the probe succeeds
and `degraded` when it fails. -/
theorem claim_C10_healthCheck_never_offline (aiProbeOk : Bool) :
    HealingEngine.healthCheck aiProbeOk =
      (if aiProbeOk then .healthy else .degraded) := by
  cases aiProbeOk <;> rfl

end ShiftyHeal
